import Mathlib

/-!
# NJ Ski Haus conditions aggregator — verification development

Shallow embedding of the two aggregation-pipeline variants of the
njskihaus-api repository:

* `lib/scrapers.js` — the SnoCountry feed pipeline (`parseRecord`,
  `fetchState`, `runAllScrapers`), embedded in the `SnoCountry` section;
* `njskihaus-api/lib/scrapers.js` — the per-resort scraper pipeline
  (33 adapters, `ALL_SCRAPERS`, `runAllScrapers`), embedded in the
  `PerResort` section;
* `api/scrape.js` — the trigger handler (auth check, run, persist).

JavaScript dynamic values are modelled by the inductive `JSVal`
(undefined, null, booleans, finite numbers as exact rationals, NaN,
strings, arrays, objects).  JavaScript numbers are IEEE doubles; here
they are modelled as exact rationals, which agrees with the source on
every value the claims exercise.  Exceptions are modelled by
`Except String`; an async function that settles is a value of
`Except String α` (`.ok` = fulfilled, `.error` = rejected).
-/

namespace NJSki

/-- A JavaScript runtime value.  `num` carries an exact rational in place
of an IEEE double; `nan` is kept separate so that truthiness and `isNaN`
checks are faithful.  Objects are association lists (JSON object keys are
assumed unique, as produced by `JSON.parse`). -/
inductive JSVal where
  | undefined : JSVal
  | jsnull : JSVal
  | bool : Bool → JSVal
  | num : ℚ → JSVal
  | nan : JSVal
  | str : String → JSVal
  | arr : List JSVal → JSVal
  | obj : List (String × JSVal) → JSVal

/-- JavaScript truthiness: `undefined`, `null`, `false`, `0`, `NaN` and
`""` are falsy; every other value (including all objects and arrays) is
truthy. -/
def jsTruthy : JSVal → Bool
  | .undefined => false
  | .jsnull => false
  | .bool b => b
  | .num q => decide (q ≠ 0)
  | .nan => false
  | .str s => decide (s ≠ "")
  | .arr _ => true
  | .obj _ => true

/-- `v != null` with JavaScript loose equality: false exactly for `null`
and `undefined`. -/
def jsLooseNeqNull : JSVal → Bool
  | .jsnull => false
  | .undefined => false
  | _ => true

/-- `a || b`: first operand if truthy, else second. -/
def jsOr (a b : JSVal) : JSVal := if jsTruthy a then a else b

/-- `x || null`. -/
def jsOrNull (a : JSVal) : JSVal := if jsTruthy a then a else .jsnull

/-- `SameValueZero`, the equality used by `Set`: structural on
primitives with `NaN` equal to itself.  Distinct array/object values are
distinct references in the source runs modelled here, so they compare
unequal. -/
def jsSameValueZero : JSVal → JSVal → Bool
  | .undefined, .undefined => true
  | .jsnull, .jsnull => true
  | .bool a, .bool b => a == b
  | .num a, .num b => a == b
  | .nan, .nan => true
  | .str a, .str b => a == b
  | _, _ => false

/-- Value of the digit list `ds` read in base 10. -/
def digitsToNat (ds : List Char) : ℕ :=
  ds.foldl (fun a c => a * 10 + (c.toNat - 48)) 0

/-- Parse an unsigned decimal literal (`digits`, `digits.digits`,
`.digits`, `digits.`) from the front of `cs`; returns the value and the
unconsumed suffix.  Exponent notation, which never occurs in the feeds
the claims exercise, is not modelled. -/
def parseUF (cs : List Char) : Option (ℚ × List Char) :=
  let ip := cs.takeWhile (·.isDigit)
  let rest1 := cs.dropWhile (·.isDigit)
  match rest1 with
  | '.' :: rest2 =>
      let fp := rest2.takeWhile (·.isDigit)
      let rest3 := rest2.dropWhile (·.isDigit)
      if ip.isEmpty && fp.isEmpty then none
      else some ((digitsToNat ip : ℚ) + (digitsToNat fp : ℚ) / (10 : ℚ) ^ fp.length, rest3)
  | _ => if ip.isEmpty then none else some ((digitsToNat ip : ℚ), rest1)

/-- `parseFloat` on a string: skip leading whitespace, optional sign,
then the longest decimal prefix; `NaN` when no digits are found. -/
def strParseFloat (s : String) : JSVal :=
  let cs := s.toList.dropWhile (·.isWhitespace)
  match cs with
  | '-' :: rest =>
      match parseUF rest with
      | some (q, _) => .num (-q)
      | none => .nan
  | '+' :: rest =>
      match parseUF rest with
      | some (q, _) => .num q
      | none => .nan
  | _ =>
      match parseUF cs with
      | some (q, _) => .num q
      | none => .nan

/-- `parseInt` (radix 10) on a string: skip leading whitespace, optional
sign, then the longest digit prefix; `NaN` when no digits are found.
(`0x` radix detection is not modelled; no claim exercises it.) -/
def strParseIntDec (s : String) : JSVal :=
  let cs := s.toList.dropWhile (·.isWhitespace)
  match cs with
  | '-' :: rest =>
      let ds := rest.takeWhile (·.isDigit)
      if ds.isEmpty then .nan else .num (-(digitsToNat ds : ℚ))
  | '+' :: rest =>
      let ds := rest.takeWhile (·.isDigit)
      if ds.isEmpty then .nan else .num ((digitsToNat ds : ℚ))
  | _ =>
      let ds := cs.takeWhile (·.isDigit)
      if ds.isEmpty then .nan else .num ((digitsToNat ds : ℚ))

/-- Fuel-bounded decimal expansion of the fraction `r / d`, used to print
non-integral numbers (an approximation of JS float printing, reachable
only through exotic array/object coercions no claim exercises). -/
def fracDigitsStr : ℕ → ℕ → ℕ → String
  | _, _, 0 => ""
  | r, d, fuel + 1 =>
      if r = 0 then ""
      else
        let r10 := r * 10
        toString (r10 / d) ++ fracDigitsStr (r10 % d) d fuel

/-- `String(x)` for a finite number. -/
def ratToString (q : ℚ) : String :=
  if q.den = 1 then toString q.num
  else
    let sign := if q < 0 then "-" else ""
    let n := q.num.natAbs
    sign ++ toString (n / q.den) ++ "." ++ fracDigitsStr (n % q.den) q.den 30

/-- Fuel-bounded core of `String(v)`: array elements are stringified
recursively (one fuel unit per nesting level) and joined with commas,
with `null`/`undefined` elements rendered empty, as in JS.  The fuel is
structural so the definition reduces inside the kernel; the wrapper
below always supplies enough. -/
def jsValToStringF (fuel : ℕ) (v : JSVal) : String :=
  match v with
  | .undefined => "undefined"
  | .jsnull => "null"
  | .bool b => if b then "true" else "false"
  | .num q => ratToString q
  | .nan => "NaN"
  | .str s => s
  | .arr xs =>
      match fuel with
      | 0 => ""
      | fuel + 1 =>
          String.intercalate "," (xs.map (fun el =>
            match el with
            | .undefined => ""
            | .jsnull => ""
            | el => jsValToStringF fuel el))
  | .obj _ => "[object Object]"

/-- The engine's call-stack bound: recursion deeper than this throws in
a real JS engine, and no value the pipeline handles comes anywhere near
it. -/
def jsStackLimit : ℕ := 10000

/-- `String(v)` / `ToString` coercion. -/
def jsValToString (v : JSVal) : String := jsValToStringF jsStackLimit v

/-- `parseFloat(v)`: a finite number is returned unchanged (its string
round-trips), everything else is coerced to a string and parsed. -/
def jsParseFloat : JSVal → JSVal
  | .num q => .num q
  | .nan => .nan
  | v => strParseFloat (jsValToString v)

/-- Truncation toward zero, `parseInt`'s effect on a finite number. -/
def ratTrunc (q : ℚ) : ℤ := q.num / (q.den : ℤ)

/-- `parseInt(v)` (no radix argument; decimal inputs). -/
def jsParseInt : JSVal → JSVal
  | .num q => .num ((ratTrunc q : ℤ) : ℚ)
  | .nan => .nan
  | v => strParseIntDec (jsValToString v)

/-- `Number(s)` for a string: trim, empty string is `0`, otherwise the
whole string must be a signed decimal literal; `none` models `NaN`. -/
def strToNumberOpt (s : String) : Option ℚ :=
  let cs := s.toList.dropWhile (·.isWhitespace)
  let cs := (cs.reverse.dropWhile (·.isWhitespace)).reverse
  match cs with
  | [] => some 0
  | '-' :: rest =>
      match parseUF rest with
      | some (q, []) => some (-q)
      | _ => none
  | '+' :: rest =>
      match parseUF rest with
      | some (q, []) => some q
      | _ => none
  | _ =>
      match parseUF cs with
      | some (q, []) => some q
      | _ => none

/-- `ToNumber` coercion; `none` models `NaN`. -/
def jsToNumberOpt : JSVal → Option ℚ
  | .undefined => none
  | .jsnull => some 0
  | .bool b => some (if b then 1 else 0)
  | .num q => some q
  | .nan => none
  | .str s => strToNumberOpt s
  | .arr xs => strToNumberOpt (jsValToString (.arr xs))
  | .obj _ => none

/-- `Math.round`: round half toward positive infinity. -/
def jsRound (q : ℚ) : ℤ := Rat.floor (q + 1/2)

/-- Property read `v[k]`; throws a `TypeError` on `null`/`undefined`,
yields `undefined` on primitives and missing keys. -/
def jsGet (v : JSVal) (k : String) : Except String JSVal :=
  match v with
  | .undefined => .error ("TypeError: cannot read " ++ k ++ " of undefined")
  | .jsnull => .error ("TypeError: cannot read " ++ k ++ " of null")
  | .obj fs => .ok ((fs.lookup k).getD .undefined)
  | _ => .ok .undefined

/-- `v[k1] || v[k2]` with short-circuit evaluation of the second read. -/
def jsGetOr2 (v : JSVal) (k1 k2 : String) : Except String JSVal := do
  let a ← jsGet v k1
  if jsTruthy a then pure a else jsGet v k2

/-- `v[k1] || v[k2] || v[k3]`. -/
def jsGetOr3 (v : JSVal) (k1 k2 k3 : String) : Except String JSVal := do
  let a ← jsGet v k1
  if jsTruthy a then pure a else jsGetOr2 v k2 k3

/-- `v[k1] || v[k2] || v[k3] || v[k4]`. -/
def jsGetOr4 (v : JSVal) (k1 k2 k3 k4 : String) : Except String JSVal := do
  let a ← jsGet v k1
  if jsTruthy a then pure a else jsGetOr3 v k2 k3 k4

/-! ## Shared parsing helpers of `njskihaus-api/lib/scrapers.js` -/

/-- `parseInches`: falsy input gives `null`; otherwise strip every
character but digits and dots, `parseFloat` the remainder, `null` on
`NaN`. -/
def parseInches (v : JSVal) : JSVal :=
  if jsTruthy v = false then .jsnull
  else
    let cleaned := (jsValToString v).toList.filter (fun c => c.isDigit || c == '.')
    match parseUF cleaned with
    | some (q, _) => .num q
    | none => .jsnull

/-- `parseInt2`: falsy input gives `null`; otherwise strip every
non-digit, `parseInt(_, 10)`, `null` on `NaN`. -/
def parseInt2 (v : JSVal) : JSVal :=
  if jsTruthy v = false then .jsnull
  else
    let ds := (jsValToString v).toList.filter (·.isDigit)
    if ds.isEmpty then .jsnull else .num ((digitsToNat ds : ℚ))

/-- `cmToIn`: `null` (or `undefined`, via loose `==`) gives `null`;
otherwise `Math.round(cm / 2.54)` with `ToNumber` coercion of the
operand. -/
def cmToIn : JSVal → JSVal
  | .jsnull => .jsnull
  | .undefined => .jsnull
  | v =>
      match jsToNumberOpt v with
      | none => .nan
      | some q => .num ((jsRound (q / 2.54) : ℤ) : ℚ)

/-- `x * 2.54`-style numeric multiplication with `ToNumber` coercion
(used by the `leMassif` adapter). -/
def jsMul (a : JSVal) (q : ℚ) : JSVal :=
  match jsToNumberOpt a with
  | none => .nan
  | some x => .num (x * q)

/-! ## Variant 1: the SnoCountry pipeline (`lib/scrapers.js`) -/

namespace SnoCountry

/-- The `NAME_MAP` registry: SnoCountry resort name → card name. -/
def NAME_MAP : List (String × String) := [
  ("Mountain Creek",                    "MOUNTAIN CREEK"),
  ("Killington Resort",                 "KILLINGTON"),
  ("Killington",                        "KILLINGTON"),
  ("Stowe Mountain Resort",             "STOWE"),
  ("Stowe",                             "STOWE"),
  ("Stratton Mountain",                 "STRATTON"),
  ("Stratton",                          "STRATTON"),
  ("Sugarbush Resort",                  "SUGARBUSH"),
  ("Sugarbush",                         "SUGARBUSH"),
  ("Pico Mountain",                     "PICO MTN"),
  ("Pico",                              "PICO MTN"),
  ("Okemo Mountain Resort",             "OKEMO"),
  ("Okemo",                             "OKEMO"),
  ("Mount Snow",                        "MOUNT SNOW"),
  ("Jay Peak",                          "JAY PEAK"),
  ("Jay Peak Resort",                   "JAY PEAK"),
  ("Burke Mountain",                    "BURKE MTN"),
  ("Bolton Valley",                     "BOLTON VALLEY"),
  ("Bolton Valley Resort",              "BOLTON VALLEY"),
  ("Magic Mountain",                    "MAGIC MTN"),
  ("Hunter Mountain",                   "HUNTER MTN"),
  ("Whiteface Mountain",                "WHITEFACE"),
  ("Whiteface",                         "WHITEFACE"),
  ("Gore Mountain",                     "GORE MTN"),
  ("Gore",                              "GORE MTN"),
  ("Belleayre Mountain",                "BELLEAYRE"),
  ("Belleayre",                         "BELLEAYRE"),
  ("Catamount",                         "CATAMOUNT"),
  ("Greek Peak Mountain Resort",        "GREEK PEAK"),
  ("Greek Peak",                        "GREEK PEAK"),
  ("West Mountain",                     "WEST MTN"),
  ("Camelback Mountain Resort",         "CAMELBACK"),
  ("Camelback",                         "CAMELBACK"),
  ("Blue Mountain",                     "BLUE MTN PA"),
  ("Blue Mountain Resort",              "BLUE MTN PA"),
  ("Shawnee Mountain",                  "SHAWNEE MTN"),
  ("Sunday River",                      "SUNDAY RIVER"),
  ("Sunday River Resort",               "SUNDAY RIVER"),
  ("Sugarloaf",                         "SUGARLOAF"),
  ("Sugarloaf Mountain",                "SUGARLOAF"),
  ("Saddleback Maine",                  "SADDLEBACK"),
  ("Saddleback Mountain",               "SADDLEBACK"),
  ("Saddleback",                        "SADDLEBACK"),
  ("Loon Mountain",                     "LOON MTN"),
  ("Loon Mountain Resort",              "LOON MTN"),
  ("Attitash",                          "ATTITASH"),
  ("Attitash Mountain Resort",          "ATTITASH"),
  ("Wildcat Mountain",                  "WILDCAT"),
  ("Wildcat",                           "WILDCAT"),
  ("Cannon Mountain",                   "CANNON MTN"),
  ("Waterville Valley",                 "WATERVILLE VLY"),
  ("Waterville Valley Resort",          "WATERVILLE VLY"),
  ("Mont-Tremblant",                    "MONT-TREMBLANT"),
  ("Tremblant",                         "MONT-TREMBLANT"),
  ("Le Massif de Charlevoix",           "LE MASSIF"),
  ("Le Massif",                         "LE MASSIF"),
  ("Mont-Sainte-Anne",                  "MONT-STE-ANNE"),
  ("Mont Sainte Anne",                  "MONT-STE-ANNE")]

/-- `NAME_MAP[v]`: the property key is `v` coerced to a string; a miss
yields `undefined`. -/
def nameMapGet (v : JSVal) : JSVal :=
  match NAME_MAP.lookup (jsValToString v) with
  | some c => .str c
  | none => .undefined

/-- `name?.trim()`: `undefined` on `null`/`undefined`, trims strings,
and throws a `TypeError` on any other receiver (numbers, booleans,
arrays and plain objects have no `trim` method). -/
def jsOptChainTrim : JSVal → Except String JSVal
  | .undefined => .ok .undefined
  | .jsnull => .ok .undefined
  | .str s => .ok (.str s.trim)
  | _ => .error "TypeError: trim is not a function"

/-- `NAME_MAP[name] || NAME_MAP[name?.trim()]` — the canonical name
resolver of `parseRecord`. -/
def resolveNameE (name : JSVal) : Except String JSVal := do
  let a := nameMapGet name
  if jsTruthy a then pure a
  else do
    let tr ← jsOptChainTrim name
    pure (nameMapGet tr)

/-- The record `parseRecord` returns for an accepted SnoCountry entry.
`name` holds the value the source stores there (the raw
`resort_name`/`resortName` value); `status` and `source` are the string
the source always populates. -/
structure SCRecord where
  name : JSVal
  base : JSVal
  summit : JSVal
  newSnow24 : JSVal
  newSnow48 : JSVal
  newSnow7d : JSVal
  trailsOpen : JSVal
  trailsTotal : JSVal
  liftsOpen : JSVal
  liftsTotal : JSVal
  surface : JSVal
  season : JSVal
  status : String
  updatedAt : JSVal
  source : String

/-- `parseRecord(r)` of `lib/scrapers.js`; `t` stands for
`new Date().toISOString()`.  `.ok none` models `return null` (record
dropped); `.error` models an uncaught throw inside the function. -/
def parseRecord (t : String) (r : JSVal) : Except String (Option SCRecord) := do
  let name ← jsGetOr2 r "resort_name" "resortName"
  let ourName ← resolveNameE name
  if jsTruthy ourName then do
    let bd ← jsGetOr2 r "base_depth" "baseDepth"
    let sd ← jsGetOr2 r "summit_depth" "summitDepth"
    let n24 ← jsGetOr4 r "fresh_snow" "freshSnow" "snow_last_24h" "snowLast24Hours"
    let n48 ← jsGetOr2 r "snow_last_48h" "snowLast48Hours"
    let n7 ← jsGetOr2 r "snow_last_7d" "snowLast7Days"
    let sea ← jsGetOr2 r "season_total" "seasonTotal"
    let tOp ← jsGetOr4 r "open_runs" "openRuns" "open_trails" "openTrails"
    let tTot ← jsGetOr4 r "total_runs" "totalRuns" "total_trails" "totalTrails"
    let lOp ← jsGetOr2 r "open_lifts" "openLifts"
    let lTot ← jsGetOr2 r "total_lifts" "totalLifts"
    let rs ← jsGetOr2 r "resort_status" "resortStatus"
    let sur ← jsGetOr2 r "primary_surface_condition" "primarySurfaceCondition"
    let upd ← jsGetOr2 r "report_date_time" "reportDateTime"
    let statusCode := jsOr (jsParseInt rs) (.num 0)
    let status :=
      match statusCode with
      | .num q => if q ≤ 3 then "Open" else "Closed"
      | _ => "Closed"
    pure (some {
      name := name,
      base := jsOrNull (jsParseFloat bd),
      summit := jsOrNull (jsParseFloat sd),
      newSnow24 := jsOrNull (jsParseFloat n24),
      newSnow48 := jsOrNull (jsParseFloat n48),
      newSnow7d := jsOrNull (jsParseFloat n7),
      trailsOpen := jsOrNull (jsParseInt tOp),
      trailsTotal := jsOrNull (jsParseInt tTot),
      liftsOpen := jsOrNull (jsParseInt lOp),
      liftsTotal := jsOrNull (jsParseInt lTot),
      surface := jsOrNull sur,
      season := jsOrNull (jsParseFloat sea),
      status := status,
      updatedAt := jsOr upd (.str t),
      source := "SnoCountry" })
  else pure none

/-- `fetchState`: given the settled outcome of fetching and
`JSON.parse`-ing one state feed (`.error` covering timeout, network
failure, non-2xx status and JSON parse failure), the function's return
value.  The whole body is inside `try`, and the `catch` returns `[]`. -/
def fetchState (fetched : Except String JSVal) : JSVal :=
  match (do
      let data ← fetched
      match data with
      | .arr xs => pure (JSVal.arr xs)
      | _ => do
          let a ← jsGet data "resorts"
          if jsTruthy a then pure a
          else do
            let b ← jsGet data "data"
            if jsTruthy b then pure b else pure (JSVal.arr [])) with
  | .ok v => v
  | .error _ => .arr []

/-- `allResorts.push(...result.value)`: spreading a value into the
accumulator; arrays spread their elements, strings their characters,
anything else throws (not iterable). -/
def jsSpread : JSVal → Except String (List JSVal)
  | .arr xs => .ok xs
  | .str s => .ok (s.toList.map (fun c => .str (String.singleton c)))
  | _ => .error "TypeError: value is not iterable"

/-- The matched/dedup loop of `runAllScrapers`: for each raw entry run
`parseRecord`; keep an accepted record only when its `name` is not yet
in the `matchedNames` set. -/
def matchedGo (t : String) : List JSVal → List SCRecord → List JSVal →
    Except String (List SCRecord)
  | [], acc, _ => .ok acc
  | r :: rest, acc, seen => do
      let parsed ← parseRecord t r
      match parsed with
      | some p =>
          if seen.any (fun s => jsSameValueZero s p.name) then
            matchedGo t rest acc seen
          else
            matchedGo t rest (acc ++ [p]) (seen ++ [p.name])
      | none => matchedGo t rest acc seen

/-- The snapshot `runAllScrapers` of `lib/scrapers.js` resolves with. -/
structure Snapshot where
  mountains : List SCRecord
  scrapedAt : String
  successCount : ℕ
  totalCount : ℕ

/-- `runAllScrapers` of `lib/scrapers.js`.  `allResults` is the list of
settled outcomes of the per-state `fetchState` promises (the payload of
a fulfilled outcome being `fetchState`'s return value); `t` stands for
the wall-clock ISO timestamp.  A rejected state result is skipped; a
fulfilled one is spread into `allResorts`.  `.error` models the run
itself rejecting (an uncaught throw in the aggregation loop). -/
def runAllScrapers (allResults : List (Except String JSVal)) (t : String) :
    Except String Snapshot := do
  let allResorts ← allResults.foldlM
    (fun acc res =>
      match res with
      | .ok v => do
          let xs ← jsSpread v
          pure (acc ++ xs)
      | .error _ => pure acc)
    ([] : List JSVal)
  let matched ← matchedGo t allResorts [] []
  pure {
    mountains := matched,
    scrapedAt := t,
    successCount := (matched.filter (fun m => jsLooseNeqNull m.base)).length,
    totalCount := matched.length }

end SnoCountry

/-! ## Variant 2: the per-resort pipeline (`njskihaus-api/lib/scrapers.js`) -/

namespace PerResort

/-- A fetched, cheerio-loaded HTML page.  `sel q` is
`$(q).first().text()` (cheerio returns `""` when nothing matches, and
never throws); `rows` are the `(label, value)` text pairs the `jayPeak`
adapter iterates with `$('table tr, .report-row').each`. -/
structure Page where
  sel : String → String
  rows : List (String × String) := []

/-- A canonical condition record as the per-resort adapters build it.
Fields a JS object literal omits are `undefined`. -/
structure Record2 where
  name : String
  base : JSVal := .undefined
  summit : JSVal := .undefined
  newSnow24 : JSVal := .undefined
  newSnow48 : JSVal := .undefined
  newSnow7d : JSVal := .undefined
  trailsOpen : JSVal := .undefined
  trailsTotal : JSVal := .undefined
  liftsOpen : JSVal := .undefined
  liftsTotal : JSVal := .undefined
  surface : JSVal := .undefined
  season : JSVal := .undefined
  status : JSVal := .undefined
  updatedAt : JSVal := .undefined
  source : JSVal := .undefined

/-- `try { body } catch { return deg }` for an adapter whose catch block
returns a plain record (and cannot itself throw). -/
def scrapeTry (body : Except String Record2) (deg : Record2) :
    Except String Record2 :=
  match body with
  | .ok r => .ok r
  | .error _ => .ok deg

/-- `try { body } catch { try { fb } catch { return deg } }` — the shape
of the two adapters with a fallback source. -/
def scrapeTry2 (body fb : Except String Record2) (deg : Record2) :
    Except String Record2 :=
  match body with
  | .ok r => .ok r
  | .error _ => scrapeTry fb deg

/-- `$(q).first().text().trim() || null`. -/
def textOrNull (s : String) : JSVal := jsOrNull (.str s.trim)

def mountainCreekUrl : String := "https://www.mountaincreek.com/mountain/snow-report"

/-- The `mountainCreek` adapter; `f` is the settled outcome of
`fetchHTML(url)`. -/
def mountainCreekRun (t : String) (f : Except String Page) : Except String Record2 :=
  scrapeTry (do
    let p ← f
    pure { name := "MOUNTAIN CREEK",
           base := parseInches (.str (p.sel "[class*=\"base\"], [class*=\"Base\"]")),
           newSnow24 := parseInches (.str (p.sel "[class*=\"24\"], [class*=\"overnight\"]")),
           trailsOpen := parseInt2 (.str (p.sel "[class*=\"open\"][class*=\"trail\"], [class*=\"trails-open\"]")),
           trailsTotal := parseInt2 (.str (p.sel "[class*=\"total\"][class*=\"trail\"], [class*=\"trails-total\"]")),
           surface := textOrNull (p.sel "[class*=\"surface\"], [class*=\"condition\"]"),
           status := .str "Open",
           updatedAt := .str t,
           source := .str mountainCreekUrl })
    { name := "MOUNTAIN CREEK", updatedAt := .str t, source := .str mountainCreekUrl }

def killingtonUrl : String := "https://www.killington.com/api/resort-stats"
def killingtonFallbackUrl : String := "https://www.killington.com/the-mountain/snow-report"

/-- The `killington` adapter: JSON endpoint first (`j` its settled
outcome), HTML conditions page as fallback (`f`). -/
def killingtonRun (t : String) (j : Except String JSVal) (f : Except String Page) :
    Except String Record2 :=
  scrapeTry2
    (do
      let data ← j
      let sr ← (do
        let a ← jsGet data "snowReport"
        if jsTruthy a then pure a
        else do
          let b ← jsGet data "snow_report"
          pure (if jsTruthy b then b else data))
      let bd ← jsGetOr3 sr "baseDepth" "base_depth" "base"
      let sd ← jsGetOr3 sr "summitDepth" "summit_depth" "summit"
      let n24 ← jsGetOr3 sr "last24Hours" "new_snow_24" "snowfall24"
      let n48 ← jsGetOr3 sr "last48Hours" "new_snow_48" "snowfall48"
      let tOp ← jsGetOr2 sr "openTrails" "trails_open"
      let tTot ← jsGetOr2 sr "totalTrails" "trails_total"
      let lOp ← jsGetOr2 sr "openLifts" "lifts_open"
      let lTot ← jsGetOr2 sr "totalLifts" "lifts_total"
      let sur ← jsGetOr2 sr "primarySurface" "surface_conditions"
      let sea ← jsGetOr2 sr "seasonTotal" "season_total"
      let st ← jsGetOr2 sr "status" "resortStatus"
      pure { name := "KILLINGTON",
             base := parseInches bd,
             summit := parseInches sd,
             newSnow24 := parseInches n24,
             newSnow48 := parseInches n48,
             trailsOpen := parseInt2 tOp,
             trailsTotal := parseInt2 tTot,
             liftsOpen := parseInt2 lOp,
             liftsTotal := parseInt2 lTot,
             surface := jsOrNull sur,
             season := parseInches sea,
             status := jsOr st (.str "Open"),
             updatedAt := .str t,
             source := .str killingtonUrl })
    (do
      let p ← f
      pure { name := "KILLINGTON",
             base := parseInches (.str (p.sel ".snow-report__base, [data-value=\"base\"]")),
             newSnow24 := parseInches (.str (p.sel "[data-period=\"24h\"], .snow-24")),
             trailsOpen := parseInt2 (.str (p.sel ".trails-open, [data-label=\"Trails Open\"]")),
             surface := textOrNull (p.sel ".surface-condition, .primary-surface"),
             status := .str "Open",
             updatedAt := .str t,
             source := .str killingtonFallbackUrl })
    { name := "KILLINGTON", updatedAt := .str t, source := .str killingtonFallbackUrl }

def stoweUrl : String := "https://www.stowe.com/the-mountain/mountain-report.aspx"

/-- The `stowe` adapter. -/
def stoweRun (t : String) (f : Except String Page) : Except String Record2 :=
  scrapeTry (do
    let p ← f
    pure { name := "STOWE",
           base := parseInches (.str (p.sel "[data-field=\"base-depth\"], .conditions__base")),
           summit := parseInches (.str (p.sel "[data-field=\"summit-depth\"], .conditions__summit")),
           newSnow24 := parseInches (.str (p.sel "[data-field=\"overnight-snowfall\"], [data-hours=\"24\"]")),
           newSnow48 := parseInches (.str (p.sel "[data-field=\"48hr-snowfall\"], [data-hours=\"48\"]")),
           trailsOpen := parseInt2 (.str (p.sel "[data-field=\"open-trails\"], .trails__open")),
           trailsTotal := parseInt2 (.str (p.sel "[data-field=\"total-trails\"], .trails__total")),
           liftsOpen := parseInt2 (.str (p.sel "[data-field=\"open-lifts\"]")),
           surface := textOrNull (p.sel "[data-field=\"surface-conditions\"]"),
           season := parseInches (.str (p.sel "[data-field=\"season-total\"]")),
           status := .str "Open",
           updatedAt := .str t,
           source := .str stoweUrl })
    { name := "STOWE", updatedAt := .str t, source := .str stoweUrl }

def strattonUrl : String := "https://www.stratton.com/the-mountain/mountain-report.aspx"

/-- The `stratton` adapter. -/
def strattonRun (t : String) (f : Except String Page) : Except String Record2 :=
  scrapeTry (do
    let p ← f
    pure { name := "STRATTON",
           base := parseInches (.str (p.sel "[data-field=\"base-depth\"]")),
           newSnow24 := parseInches (.str (p.sel "[data-field=\"overnight-snowfall\"]")),
           trailsOpen := parseInt2 (.str (p.sel "[data-field=\"open-trails\"]")),
           trailsTotal := parseInt2 (.str (p.sel "[data-field=\"total-trails\"]")),
           liftsOpen := parseInt2 (.str (p.sel "[data-field=\"open-lifts\"]")),
           surface := textOrNull (p.sel "[data-field=\"surface-conditions\"]"),
           status := .str "Open",
           updatedAt := .str t,
           source := .str strattonUrl })
    { name := "STRATTON", updatedAt := .str t, source := .str strattonUrl }

def sugarbushUrl : String := "https://www.sugarbush.com/mountain-info/mountain-report/"

/-- The `sugarbush` adapter. -/
def sugarbushRun (t : String) (f : Except String Page) : Except String Record2 :=
  scrapeTry (do
    let p ← f
    pure { name := "SUGARBUSH",
           base := parseInches (.str (p.sel ".base-depth, [class*=\"base\"]")),
           newSnow24 := parseInches (.str (p.sel "[class*=\"24hour\"], [class*=\"overnight\"]")),
           trailsOpen := parseInt2 (.str (p.sel "[class*=\"trails-open\"]")),
           trailsTotal := parseInt2 (.str (p.sel "[class*=\"trails-total\"]")),
           liftsOpen := parseInt2 (.str (p.sel "[class*=\"lifts-open\"]")),
           surface := textOrNull (p.sel "[class*=\"surface\"]"),
           status := .str "Open",
           updatedAt := .str t,
           source := .str sugarbushUrl })
    { name := "SUGARBUSH", updatedAt := .str t, source := .str sugarbushUrl }

def picoUrl : String := "https://www.picomountain.com/the-mountain/snow-report"

/-- The `pico` adapter. -/
def picoRun (t : String) (f : Except String Page) : Except String Record2 :=
  scrapeTry (do
    let p ← f
    pure { name := "PICO MTN",
           base := parseInches (.str (p.sel "[class*=\"base\"]")),
           newSnow24 := parseInches (.str (p.sel "[class*=\"overnight\"], [class*=\"24\"]")),
           trailsOpen := parseInt2 (.str (p.sel "[class*=\"trails-open\"]")),
           trailsTotal := parseInt2 (.str (p.sel "[class*=\"trails-total\"]")),
           surface := textOrNull (p.sel "[class*=\"surface\"]"),
           status := .str "Open",
           updatedAt := .str t,
           source := .str picoUrl })
    { name := "PICO MTN", updatedAt := .str t, source := .str picoUrl }

def okemoUrl : String := "https://www.okemo.com/the-mountain/mountain-report.aspx"

/-- The `okemo` adapter. -/
def okemoRun (t : String) (f : Except String Page) : Except String Record2 :=
  scrapeTry (do
    let p ← f
    pure { name := "OKEMO",
           base := parseInches (.str (p.sel "[data-field=\"base-depth\"]")),
           newSnow24 := parseInches (.str (p.sel "[data-field=\"overnight-snowfall\"]")),
           trailsOpen := parseInt2 (.str (p.sel "[data-field=\"open-trails\"]")),
           trailsTotal := parseInt2 (.str (p.sel "[data-field=\"total-trails\"]")),
           surface := textOrNull (p.sel "[data-field=\"surface-conditions\"]"),
           status := .str "Open",
           updatedAt := .str t,
           source := .str okemoUrl })
    { name := "OKEMO", updatedAt := .str t, source := .str okemoUrl }

def mountSnowUrl : String := "https://www.mountsnow.com/the-mountain/mountain-report.aspx"

/-- The `mountSnow` adapter. -/
def mountSnowRun (t : String) (f : Except String Page) : Except String Record2 :=
  scrapeTry (do
    let p ← f
    pure { name := "MOUNT SNOW",
           base := parseInches (.str (p.sel "[data-field=\"base-depth\"]")),
           newSnow24 := parseInches (.str (p.sel "[data-field=\"overnight-snowfall\"]")),
           trailsOpen := parseInt2 (.str (p.sel "[data-field=\"open-trails\"]")),
           trailsTotal := parseInt2 (.str (p.sel "[data-field=\"total-trails\"]")),
           surface := textOrNull (p.sel "[data-field=\"surface-conditions\"]"),
           status := .str "Open",
           updatedAt := .str t,
           source := .str mountSnowUrl })
    { name := "MOUNT SNOW", updatedAt := .str t, source := .str mountSnowUrl }

/-- The `tableData` accumulator of the `jayPeak` adapter. -/
structure JayTable where
  base : JSVal := .undefined
  new24 : JSVal := .undefined
  new48 : JSVal := .undefined
  season : JSVal := .undefined
  trailsOpen : JSVal := .undefined

/-- `label.includes(pat)` for a non-empty pattern. -/
def strIncludes (s pat : String) : Bool := (s.splitOn pat).length > 1

/-- One iteration of `$('table tr, .report-row').each` in `jayPeak`. -/
def jayStep (td : JayTable) (row : String × String) : JayTable :=
  let label := row.1.toLower.trim
  let val := row.2.trim
  let td := if strIncludes label "base" then { td with base := .str val } else td
  let td := if strIncludes label "24" then { td with new24 := .str val } else td
  let td := if strIncludes label "48" then { td with new48 := .str val } else td
  let td := if strIncludes label "season" then { td with season := .str val } else td
  if strIncludes label "open" && strIncludes label "trail" then
    { td with trailsOpen := .str val }
  else td

def jayPeakUrl : String := "https://jaypeakresort.com/mountain-report"

/-- The `jayPeak` adapter, including its structured-data table pass. -/
def jayPeakRun (t : String) (f : Except String Page) : Except String Record2 :=
  scrapeTry (do
    let p ← f
    let baseText := p.sel "[class*=\"snow-depth\"], [class*=\"base-depth\"]"
    let newSnowText := p.sel "[class*=\"new-snow\"], [class*=\"overnight\"]"
    let seasonText := p.sel "[class*=\"season-total\"]"
    let td := p.rows.foldl jayStep {}
    pure { name := "JAY PEAK",
           base := parseInches (jsOr (.str baseText) td.base),
           newSnow24 := parseInches (jsOr (.str newSnowText) td.new24),
           newSnow48 := parseInches td.new48,
           trailsOpen := parseInt2 (jsOr (.str (p.sel "[class*=\"trails-open\"]")) td.trailsOpen),
           trailsTotal := parseInt2 (.str (p.sel "[class*=\"trails-total\"]")),
           season := parseInches (jsOr (.str seasonText) td.season),
           surface := textOrNull (p.sel "[class*=\"surface\"]"),
           status := .str "Open",
           updatedAt := .str t,
           source := .str jayPeakUrl })
    { name := "JAY PEAK", updatedAt := .str t, source := .str jayPeakUrl }

def burkeUrl : String := "https://skiburke.com/mountain/conditions/"

/-- The `burke` adapter. -/
def burkeRun (t : String) (f : Except String Page) : Except String Record2 :=
  scrapeTry (do
    let p ← f
    pure { name := "BURKE MTN",
           base := parseInches (.str (p.sel "[class*=\"base\"]")),
           newSnow24 := parseInches (.str (p.sel "[class*=\"overnight\"], [class*=\"new-snow\"]")),
           trailsOpen := parseInt2 (.str (p.sel "[class*=\"open\"]")),
           surface := textOrNull (p.sel "[class*=\"surface\"], [class*=\"condition\"]"),
           status := .str "Open",
           updatedAt := .str t,
           source := .str burkeUrl })
    { name := "BURKE MTN", updatedAt := .str t, source := .str burkeUrl }

def boltonValleyUrl : String := "https://www.boltonvalley.com/conditions/"

/-- The `boltonValley` adapter. -/
def boltonValleyRun (t : String) (f : Except String Page) : Except String Record2 :=
  scrapeTry (do
    let p ← f
    pure { name := "BOLTON VALLEY",
           base := parseInches (.str (p.sel "[class*=\"base\"]")),
           newSnow24 := parseInches (.str (p.sel "[class*=\"24\"], [class*=\"overnight\"]")),
           trailsOpen := parseInt2 (.str (p.sel "[class*=\"open\"]")),
           season := parseInches (.str (p.sel "[class*=\"season\"]")),
           surface := textOrNull (p.sel "[class*=\"surface\"]"),
           status := .str "Open",
           updatedAt := .str t,
           source := .str boltonValleyUrl })
    { name := "BOLTON VALLEY", updatedAt := .str t, source := .str boltonValleyUrl }

def magicUrl : String := "https://www.magicmtn.com/conditions/"

/-- The `magic` adapter. -/
def magicRun (t : String) (f : Except String Page) : Except String Record2 :=
  scrapeTry (do
    let p ← f
    pure { name := "MAGIC MTN",
           base := parseInches (.str (p.sel "[class*=\"base\"]")),
           newSnow24 := parseInches (.str (p.sel "[class*=\"new\"], [class*=\"overnight\"]")),
           trailsOpen := parseInt2 (.str (p.sel "[class*=\"open\"]")),
           season := parseInches (.str (p.sel "[class*=\"season\"]")),
           status := .str "Open",
           updatedAt := .str t,
           source := .str magicUrl })
    { name := "MAGIC MTN", updatedAt := .str t, source := .str magicUrl }

def hunterUrl : String := "https://www.huntermtn.com/the-mountain/mountain-report.aspx"

/-- The `hunter` adapter. -/
def hunterRun (t : String) (f : Except String Page) : Except String Record2 :=
  scrapeTry (do
    let p ← f
    pure { name := "HUNTER MTN",
           base := parseInches (.str (p.sel "[data-field=\"base-depth\"]")),
           newSnow24 := parseInches (.str (p.sel "[data-field=\"overnight-snowfall\"]")),
           trailsOpen := parseInt2 (.str (p.sel "[data-field=\"open-trails\"]")),
           trailsTotal := parseInt2 (.str (p.sel "[data-field=\"total-trails\"]")),
           surface := textOrNull (p.sel "[data-field=\"surface-conditions\"]"),
           status := .str "Open",
           updatedAt := .str t,
           source := .str hunterUrl })
    { name := "HUNTER MTN", updatedAt := .str t, source := .str hunterUrl }

def whitefaceUrl : String := "https://www.whiteface.com/mountain-report"

/-- The `whiteface` adapter. -/
def whitefaceRun (t : String) (f : Except String Page) : Except String Record2 :=
  scrapeTry (do
    let p ← f
    pure { name := "WHITEFACE",
           base := parseInches (.str (p.sel "[class*=\"base\"]")),
           summit := parseInches (.str (p.sel "[class*=\"summit\"]")),
           newSnow24 := parseInches (.str (p.sel "[class*=\"24\"], [class*=\"overnight\"]")),
           trailsOpen := parseInt2 (.str (p.sel "[class*=\"trails-open\"], [class*=\"open-trails\"]")),
           trailsTotal := parseInt2 (.str (p.sel "[class*=\"trails-total\"]")),
           liftsOpen := parseInt2 (.str (p.sel "[class*=\"lifts-open\"]")),
           surface := textOrNull (p.sel "[class*=\"surface\"]"),
           status := .str "Open",
           updatedAt := .str t,
           source := .str whitefaceUrl })
    { name := "WHITEFACE", updatedAt := .str t, source := .str whitefaceUrl }

def goreUrl : String := "https://www.goremountain.com/mountain-report"

/-- The `gore` adapter. -/
def goreRun (t : String) (f : Except String Page) : Except String Record2 :=
  scrapeTry (do
    let p ← f
    pure { name := "GORE MTN",
           base := parseInches (.str (p.sel "[class*=\"base\"]")),
           newSnow24 := parseInches (.str (p.sel "[class*=\"24\"], [class*=\"overnight\"]")),
           trailsOpen := parseInt2 (.str (p.sel "[class*=\"trails-open\"]")),
           trailsTotal := parseInt2 (.str (p.sel "[class*=\"trails-total\"]")),
           surface := textOrNull (p.sel "[class*=\"surface\"]"),
           status := .str "Open",
           updatedAt := .str t,
           source := .str goreUrl })
    { name := "GORE MTN", updatedAt := .str t, source := .str goreUrl }

def belleayreUrl : String := "https://www.belleayre.com/mountain-report"

/-- The `belleayre` adapter. -/
def belleayreRun (t : String) (f : Except String Page) : Except String Record2 :=
  scrapeTry (do
    let p ← f
    pure { name := "BELLEAYRE",
           base := parseInches (.str (p.sel "[class*=\"base\"]")),
           newSnow24 := parseInches (.str (p.sel "[class*=\"24\"], [class*=\"overnight\"]")),
           trailsOpen := parseInt2 (.str (p.sel "[class*=\"open\"]")),
           surface := textOrNull (p.sel "[class*=\"surface\"]"),
           status := .str "Open",
           updatedAt := .str t,
           source := .str belleayreUrl })
    { name := "BELLEAYRE", updatedAt := .str t, source := .str belleayreUrl }

def catamountUrl : String := "https://www.catamountski.com/mountain-report/"

/-- The `catamount` adapter. -/
def catamountRun (t : String) (f : Except String Page) : Except String Record2 :=
  scrapeTry (do
    let p ← f
    pure { name := "CATAMOUNT",
           base := parseInches (.str (p.sel "[class*=\"base\"]")),
           newSnow24 := parseInches (.str (p.sel "[class*=\"overnight\"], [class*=\"new\"]")),
           trailsOpen := parseInt2 (.str (p.sel "[class*=\"open\"]")),
           status := .str "Open",
           updatedAt := .str t,
           source := .str catamountUrl })
    { name := "CATAMOUNT", updatedAt := .str t, source := .str catamountUrl }

def greekPeakUrl : String := "https://www.greekpeak.net/mountain-report/"

/-- The `greekPeak` adapter. -/
def greekPeakRun (t : String) (f : Except String Page) : Except String Record2 :=
  scrapeTry (do
    let p ← f
    pure { name := "GREEK PEAK",
           base := parseInches (.str (p.sel "[class*=\"base\"]")),
           newSnow24 := parseInches (.str (p.sel "[class*=\"overnight\"], [class*=\"new\"]")),
           trailsOpen := parseInt2 (.str (p.sel "[class*=\"open\"]")),
           status := .str "Open",
           updatedAt := .str t,
           source := .str greekPeakUrl })
    { name := "GREEK PEAK", updatedAt := .str t, source := .str greekPeakUrl }

def westMtnUrl : String := "https://www.westmtn.net/conditions/"

/-- The `westMtn` adapter. -/
def westMtnRun (t : String) (f : Except String Page) : Except String Record2 :=
  scrapeTry (do
    let p ← f
    pure { name := "WEST MTN",
           base := parseInches (.str (p.sel "[class*=\"base\"]")),
           newSnow24 := parseInches (.str (p.sel "[class*=\"overnight\"], [class*=\"new\"]")),
           trailsOpen := parseInt2 (.str (p.sel "[class*=\"open\"]")),
           status := .str "Open",
           updatedAt := .str t,
           source := .str westMtnUrl })
    { name := "WEST MTN", updatedAt := .str t, source := .str westMtnUrl }

def camelbackUrl : String := "https://www.camelbackresort.com/ski-snow/conditions/"

/-- The `camelback` adapter. -/
def camelbackRun (t : String) (f : Except String Page) : Except String Record2 :=
  scrapeTry (do
    let p ← f
    pure { name := "CAMELBACK",
           base := parseInches (.str (p.sel "[class*=\"base\"]")),
           newSnow24 := parseInches (.str (p.sel "[class*=\"24\"], [class*=\"overnight\"]")),
           trailsOpen := parseInt2 (.str (p.sel "[class*=\"trails-open\"], [class*=\"open-trails\"]")),
           trailsTotal := parseInt2 (.str (p.sel "[class*=\"trails-total\"]")),
           surface := textOrNull (p.sel "[class*=\"surface\"]"),
           status := .str "Open",
           updatedAt := .str t,
           source := .str camelbackUrl })
    { name := "CAMELBACK", updatedAt := .str t, source := .str camelbackUrl }

def blueMtnPAUrl : String := "https://www.skibluemt.com/mountain/conditions/"

/-- The `blueMtnPA` adapter. -/
def blueMtnPARun (t : String) (f : Except String Page) : Except String Record2 :=
  scrapeTry (do
    let p ← f
    pure { name := "BLUE MTN PA",
           base := parseInches (.str (p.sel "[class*=\"base\"]")),
           newSnow24 := parseInches (.str (p.sel "[class*=\"24\"], [class*=\"overnight\"]")),
           trailsOpen := parseInt2 (.str (p.sel "[class*=\"open\"]")),
           surface := textOrNull (p.sel "[class*=\"surface\"]"),
           status := .str "Open",
           updatedAt := .str t,
           source := .str blueMtnPAUrl })
    { name := "BLUE MTN PA", updatedAt := .str t, source := .str blueMtnPAUrl }

def shawneeUrl : String := "https://www.shawneemt.com/mountain/conditions/"

/-- The `shawnee` adapter. -/
def shawneeRun (t : String) (f : Except String Page) : Except String Record2 :=
  scrapeTry (do
    let p ← f
    pure { name := "SHAWNEE MTN",
           base := parseInches (.str (p.sel "[class*=\"base\"]")),
           newSnow24 := parseInches (.str (p.sel "[class*=\"overnight\"], [class*=\"24\"]")),
           trailsOpen := parseInt2 (.str (p.sel "[class*=\"open\"]")),
           status := .str "Open",
           updatedAt := .str t,
           source := .str shawneeUrl })
    { name := "SHAWNEE MTN", updatedAt := .str t, source := .str shawneeUrl }

def sundayRiverUrl : String := "https://www.sundayriver.com/the-mountain/mountain-report.aspx"

/-- The `sundayRiver` adapter. -/
def sundayRiverRun (t : String) (f : Except String Page) : Except String Record2 :=
  scrapeTry (do
    let p ← f
    pure { name := "SUNDAY RIVER",
           base := parseInches (.str (p.sel "[data-field=\"base-depth\"]")),
           summit := parseInches (.str (p.sel "[data-field=\"summit-depth\"]")),
           newSnow24 := parseInches (.str (p.sel "[data-field=\"overnight-snowfall\"]")),
           newSnow48 := parseInches (.str (p.sel "[data-field=\"48hr-snowfall\"]")),
           trailsOpen := parseInt2 (.str (p.sel "[data-field=\"open-trails\"]")),
           trailsTotal := parseInt2 (.str (p.sel "[data-field=\"total-trails\"]")),
           liftsOpen := parseInt2 (.str (p.sel "[data-field=\"open-lifts\"]")),
           surface := textOrNull (p.sel "[data-field=\"surface-conditions\"]"),
           status := .str "Open",
           updatedAt := .str t,
           source := .str sundayRiverUrl })
    { name := "SUNDAY RIVER", updatedAt := .str t, source := .str sundayRiverUrl }

def sugarloafUrl : String := "https://www.sugarloaf.com/the-mountain/mountain-report.aspx"

/-- The `sugarloaf` adapter. -/
def sugarloafRun (t : String) (f : Except String Page) : Except String Record2 :=
  scrapeTry (do
    let p ← f
    pure { name := "SUGARLOAF",
           base := parseInches (.str (p.sel "[data-field=\"base-depth\"]")),
           summit := parseInches (.str (p.sel "[data-field=\"summit-depth\"]")),
           newSnow24 := parseInches (.str (p.sel "[data-field=\"overnight-snowfall\"]")),
           trailsOpen := parseInt2 (.str (p.sel "[data-field=\"open-trails\"]")),
           trailsTotal := parseInt2 (.str (p.sel "[data-field=\"total-trails\"]")),
           surface := textOrNull (p.sel "[data-field=\"surface-conditions\"]"),
           season := parseInches (.str (p.sel "[data-field=\"season-total\"]")),
           status := .str "Open",
           updatedAt := .str t,
           source := .str sugarloafUrl })
    { name := "SUGARLOAF", updatedAt := .str t, source := .str sugarloafUrl }

def saddlebackUrl : String := "https://www.saddlebackmaine.com/conditions/"

/-- The `saddleback` adapter. -/
def saddlebackRun (t : String) (f : Except String Page) : Except String Record2 :=
  scrapeTry (do
    let p ← f
    pure { name := "SADDLEBACK",
           base := parseInches (.str (p.sel "[class*=\"base\"]")),
           newSnow24 := parseInches (.str (p.sel "[class*=\"24\"], [class*=\"overnight\"]")),
           trailsOpen := parseInt2 (.str (p.sel "[class*=\"open\"]")),
           season := parseInches (.str (p.sel "[class*=\"season\"]")),
           status := .str "Open",
           updatedAt := .str t,
           source := .str saddlebackUrl })
    { name := "SADDLEBACK", updatedAt := .str t, source := .str saddlebackUrl }

def loonUrl : String := "https://www.loonmtn.com/the-mountain/mountain-report.aspx"

/-- The `loon` adapter. -/
def loonRun (t : String) (f : Except String Page) : Except String Record2 :=
  scrapeTry (do
    let p ← f
    pure { name := "LOON MTN",
           base := parseInches (.str (p.sel "[data-field=\"base-depth\"]")),
           newSnow24 := parseInches (.str (p.sel "[data-field=\"overnight-snowfall\"]")),
           trailsOpen := parseInt2 (.str (p.sel "[data-field=\"open-trails\"]")),
           trailsTotal := parseInt2 (.str (p.sel "[data-field=\"total-trails\"]")),
           surface := textOrNull (p.sel "[data-field=\"surface-conditions\"]"),
           status := .str "Open",
           updatedAt := .str t,
           source := .str loonUrl })
    { name := "LOON MTN", updatedAt := .str t, source := .str loonUrl }

def attitashUrl : String := "https://www.attitash.com/the-mountain/mountain-report.aspx"

/-- The `attitash` adapter. -/
def attitashRun (t : String) (f : Except String Page) : Except String Record2 :=
  scrapeTry (do
    let p ← f
    pure { name := "ATTITASH",
           base := parseInches (.str (p.sel "[data-field=\"base-depth\"]")),
           newSnow24 := parseInches (.str (p.sel "[data-field=\"overnight-snowfall\"]")),
           trailsOpen := parseInt2 (.str (p.sel "[data-field=\"open-trails\"]")),
           surface := textOrNull (p.sel "[data-field=\"surface-conditions\"]"),
           status := .str "Open",
           updatedAt := .str t,
           source := .str attitashUrl })
    { name := "ATTITASH", updatedAt := .str t, source := .str attitashUrl }

def wildcatUrl : String := "https://www.skiwildcat.com/the-mountain/mountain-report.aspx"

/-- The `wildcat` adapter. -/
def wildcatRun (t : String) (f : Except String Page) : Except String Record2 :=
  scrapeTry (do
    let p ← f
    pure { name := "WILDCAT",
           base := parseInches (.str (p.sel "[data-field=\"base-depth\"]")),
           newSnow24 := parseInches (.str (p.sel "[data-field=\"overnight-snowfall\"]")),
           trailsOpen := parseInt2 (.str (p.sel "[data-field=\"open-trails\"]")),
           surface := textOrNull (p.sel "[data-field=\"surface-conditions\"]"),
           status := .str "Open",
           updatedAt := .str t,
           source := .str wildcatUrl })
    { name := "WILDCAT", updatedAt := .str t, source := .str wildcatUrl }

def cannonUrl : String := "https://www.cannonmt.com/mountain-report/"

/-- The `cannon` adapter. -/
def cannonRun (t : String) (f : Except String Page) : Except String Record2 :=
  scrapeTry (do
    let p ← f
    pure { name := "CANNON MTN",
           base := parseInches (.str (p.sel "[class*=\"base\"]")),
           newSnow24 := parseInches (.str (p.sel "[class*=\"overnight\"], [class*=\"24\"]")),
           trailsOpen := parseInt2 (.str (p.sel "[class*=\"open\"]")),
           trailsTotal := parseInt2 (.str (p.sel "[class*=\"total\"]")),
           season := parseInches (.str (p.sel "[class*=\"season\"]")),
           surface := textOrNull (p.sel "[class*=\"surface\"]"),
           status := .str "Open",
           updatedAt := .str t,
           source := .str cannonUrl })
    { name := "CANNON MTN", updatedAt := .str t, source := .str cannonUrl }

def watervilleValleyUrl : String := "https://www.waterville.com/mountain-report/"

/-- The `watervilleValley` adapter. -/
def watervilleValleyRun (t : String) (f : Except String Page) : Except String Record2 :=
  scrapeTry (do
    let p ← f
    pure { name := "WATERVILLE VLY",
           base := parseInches (.str (p.sel "[class*=\"base\"]")),
           newSnow24 := parseInches (.str (p.sel "[class*=\"overnight\"], [class*=\"24\"]")),
           trailsOpen := parseInt2 (.str (p.sel "[class*=\"open\"]")),
           status := .str "Open",
           updatedAt := .str t,
           source := .str watervilleValleyUrl })
    { name := "WATERVILLE VLY", updatedAt := .str t, source := .str watervilleValleyUrl }

def tremblantUrl : String := "https://www.tremblant.ca/api/mountain-conditions"
def tremblantFallbackUrl : String := "https://www.tremblant.ca/en/ski/conditions"

/-- The `tremblant` adapter: JSON endpoint first, HTML fallback. -/
def tremblantRun (t : String) (j : Except String JSVal) (f : Except String Page) :
    Except String Record2 :=
  scrapeTry2
    (do
      let data ← j
      let c ← jsGet data "conditions"
      let d := if jsTruthy c then c else data
      let bCm ← jsGet d "baseDepthCm"
      let bIn ← jsGet d "baseDepth"
      let sCm ← jsGet d "summitDepthCm"
      let nCm ← jsGet d "newSnow24hCm"
      let nIn ← jsGet d "newSnow24h"
      let tOp ← jsGetOr2 d "openTrails" "openRuns"
      let tTot ← jsGetOr2 d "totalTrails" "totalRuns"
      let lOp ← jsGet d "openLifts"
      let sur ← jsGetOr2 d "surfaceConditions" "surface"
      let seaCm ← jsGet d "seasonTotalCm"
      let seaIn ← jsGet d "seasonTotal"
      let st ← jsGet d "status"
      pure { name := "MONT-TREMBLANT",
             base := jsOr (cmToIn bCm) (parseInches bIn),
             summit := cmToIn sCm,
             newSnow24 := jsOr (cmToIn nCm) (parseInches nIn),
             trailsOpen := parseInt2 tOp,
             trailsTotal := parseInt2 tTot,
             liftsOpen := parseInt2 lOp,
             surface := jsOrNull sur,
             season := jsOr (cmToIn seaCm) (parseInches seaIn),
             status := jsOr st (.str "Open"),
             updatedAt := .str t,
             source := .str tremblantUrl })
    (do
      let p ← f
      pure { name := "MONT-TREMBLANT",
             base := parseInches (.str (p.sel "[class*=\"base\"], [class*=\"neige\"]")),
             newSnow24 := parseInches (.str (p.sel "[class*=\"24h\"], [class*=\"overnight\"]")),
             trailsOpen := parseInt2 (.str (p.sel "[class*=\"open\"], [class*=\"ouvert\"]")),
             status := .str "Open",
             updatedAt := .str t,
             source := .str tremblantFallbackUrl })
    { name := "MONT-TREMBLANT", updatedAt := .str t, source := .str tremblantFallbackUrl }

def leMassifUrl : String := "https://www.lemassif.com/en/mountain/conditions/"

/-- The `leMassif` adapter (reports centimeters; the source converts by
`cmToIn(parseInches(...) * 2.54)` with a plain-inches fallback read). -/
def leMassifRun (t : String) (f : Except String Page) : Except String Record2 :=
  scrapeTry (do
    let p ← f
    pure { name := "LE MASSIF",
           base := jsOr
             (cmToIn (jsMul (parseInches (.str (p.sel "[class*=\"base\"], [class*=\"neige\"]"))) 2.54))
             (parseInches (.str (p.sel "[class*=\"base\"]"))),
           newSnow24 := parseInches (.str (p.sel "[class*=\"24\"], [class*=\"chute\"]")),
           trailsOpen := parseInt2 (.str (p.sel "[class*=\"open\"], [class*=\"ouvert\"]")),
           season := parseInches (.str (p.sel "[class*=\"season\"], [class*=\"saison\"]")),
           status := .str "Open",
           updatedAt := .str t,
           source := .str leMassifUrl })
    { name := "LE MASSIF", updatedAt := .str t, source := .str leMassifUrl }

def montSteAnneUrl : String := "https://www.mont-sainte-anne.com/en/ski/conditions/"

/-- The `montSteAnne` adapter. -/
def montSteAnneRun (t : String) (f : Except String Page) : Except String Record2 :=
  scrapeTry (do
    let p ← f
    pure { name := "MONT-STE-ANNE",
           base := parseInches (.str (p.sel "[class*=\"base\"], [class*=\"neige\"]")),
           newSnow24 := parseInches (.str (p.sel "[class*=\"24\"], [class*=\"overnight\"]")),
           trailsOpen := parseInt2 (.str (p.sel "[class*=\"open\"], [class*=\"ouvert\"]")),
           status := .str "Open",
           updatedAt := .str t,
           source := .str montSteAnneUrl })
    { name := "MONT-STE-ANNE", updatedAt := .str t, source := .str montSteAnneUrl }

/-- The fetch outcomes one pipeline run observes: `now` is the ISO
timestamp, and each field is the settled outcome of the corresponding
adapter's fetch attempt(s). -/
structure ScrapeEnv where
  now : String
  mountainCreekF : Except String Page
  killingtonJ : Except String JSVal
  killingtonF : Except String Page
  stoweF : Except String Page
  strattonF : Except String Page
  sugarbushF : Except String Page
  picoF : Except String Page
  okemoF : Except String Page
  mountSnowF : Except String Page
  jayPeakF : Except String Page
  burkeF : Except String Page
  boltonValleyF : Except String Page
  magicF : Except String Page
  hunterF : Except String Page
  whitefaceF : Except String Page
  goreF : Except String Page
  belleayreF : Except String Page
  catamountF : Except String Page
  greekPeakF : Except String Page
  westMtnF : Except String Page
  camelbackF : Except String Page
  blueMtnPAF : Except String Page
  shawneeF : Except String Page
  sundayRiverF : Except String Page
  sugarloafF : Except String Page
  saddlebackF : Except String Page
  loonF : Except String Page
  attitashF : Except String Page
  wildcatF : Except String Page
  cannonF : Except String Page
  watervilleValleyF : Except String Page
  tremblantJ : Except String JSVal
  tremblantF : Except String Page
  leMassifF : Except String Page
  montSteAnneF : Except String Page

/-- `ALL_SCRAPERS`, in source order: each entry pairs the JS function's
`name` with the function, modelled as the settled outcome of calling it
under the given fetch environment. -/
def ALL_SCRAPERS : List (String × (ScrapeEnv → Except String Record2)) := [
  ("mountainCreek", fun e => mountainCreekRun e.now e.mountainCreekF),
  ("killington", fun e => killingtonRun e.now e.killingtonJ e.killingtonF),
  ("stowe", fun e => stoweRun e.now e.stoweF),
  ("stratton", fun e => strattonRun e.now e.strattonF),
  ("sugarbush", fun e => sugarbushRun e.now e.sugarbushF),
  ("pico", fun e => picoRun e.now e.picoF),
  ("okemo", fun e => okemoRun e.now e.okemoF),
  ("mountSnow", fun e => mountSnowRun e.now e.mountSnowF),
  ("jayPeak", fun e => jayPeakRun e.now e.jayPeakF),
  ("burke", fun e => burkeRun e.now e.burkeF),
  ("boltonValley", fun e => boltonValleyRun e.now e.boltonValleyF),
  ("magic", fun e => magicRun e.now e.magicF),
  ("hunter", fun e => hunterRun e.now e.hunterF),
  ("whiteface", fun e => whitefaceRun e.now e.whitefaceF),
  ("gore", fun e => goreRun e.now e.goreF),
  ("belleayre", fun e => belleayreRun e.now e.belleayreF),
  ("catamount", fun e => catamountRun e.now e.catamountF),
  ("greekPeak", fun e => greekPeakRun e.now e.greekPeakF),
  ("westMtn", fun e => westMtnRun e.now e.westMtnF),
  ("camelback", fun e => camelbackRun e.now e.camelbackF),
  ("blueMtnPA", fun e => blueMtnPARun e.now e.blueMtnPAF),
  ("shawnee", fun e => shawneeRun e.now e.shawneeF),
  ("sundayRiver", fun e => sundayRiverRun e.now e.sundayRiverF),
  ("sugarloaf", fun e => sugarloafRun e.now e.sugarloafF),
  ("saddleback", fun e => saddlebackRun e.now e.saddlebackF),
  ("loon", fun e => loonRun e.now e.loonF),
  ("attitash", fun e => attitashRun e.now e.attitashF),
  ("wildcat", fun e => wildcatRun e.now e.wildcatF),
  ("cannon", fun e => cannonRun e.now e.cannonF),
  ("watervilleValley", fun e => watervilleValleyRun e.now e.watervilleValleyF),
  ("tremblant", fun e => tremblantRun e.now e.tremblantJ e.tremblantF),
  ("leMassif", fun e => leMassifRun e.now e.leMassifF),
  ("montSteAnne", fun e => montSteAnneRun e.now e.montSteAnneF)]

/-- The `settled.forEach` body of `runAllScrapers`: a fulfilled scraper
pushes its record (counting it when `base != null`); a rejected one
pushes `{ name: fnName.toUpperCase(), updatedAt: now() }`. -/
def settleLoop (t : String) : List (String × Except String Record2) →
    List Record2 × ℕ
  | [] => ([], 0)
  | (nm, st) :: rest =>
      let acc := settleLoop t rest
      match st with
      | .ok data =>
          (data :: acc.1, (if jsLooseNeqNull data.base then 1 else 0) + acc.2)
      | .error _ =>
          ({ name := nm.toUpper, updatedAt := .str t } :: acc.1, acc.2)

/-- The snapshot `runAllScrapers` of `njskihaus-api/lib/scrapers.js`
resolves with. -/
structure Snapshot2 where
  mountains : List Record2
  scrapedAt : String
  successCount : ℕ
  totalCount : ℕ

/-- `runAllScrapers` of `njskihaus-api/lib/scrapers.js`:
`Promise.allSettled` over `ALL_SCRAPERS`, then the push/count loop;
`totalCount` is `ALL_SCRAPERS.length`. -/
def runAllScrapers (e : ScrapeEnv) : Snapshot2 :=
  let settled := ALL_SCRAPERS.map (fun pr => (pr.1, pr.2 e))
  let acc := settleLoop e.now settled
  { mountains := acc.1,
    scrapedAt := e.now,
    successCount := acc.2,
    totalCount := ALL_SCRAPERS.length }

end PerResort

/-! ## The trigger interface (`api/scrape.js`) -/

namespace Trigger

/-- The request data the handler inspects: the `authorization` header
and the `secret` query parameter (`none` = absent / `undefined`). -/
structure Req where
  authorization : Option String
  secretParam : Option String

/-- The per-mountain summary the handler returns:
`{ name, base, new24, ok: base != null }`. -/
structure MtnSummary where
  name : JSVal
  base : JSVal
  new24 : JSVal
  ok : Bool

/-- `results.mountains.map(m => ({...}))`. -/
def mtnSummary (m : SnoCountry.SCRecord) : MtnSummary :=
  { name := m.name, base := m.base, new24 := m.newSnow24,
    ok := jsLooseNeqNull m.base }

/-- The handler's response: 401 unauthorized, 200 success payload, or
500 on an error that escaped the pipeline. -/
inductive Resp where
  | unauthorized : Resp
  | success (scrapedAt : String) (successCount totalCount : ℕ) (saved : Bool)
      (mountains : List MtnSummary) : Resp
  | fatal (msg : String) : Resp

/-- HTTP status of a response. -/
def Resp.status : Resp → ℕ
  | .unauthorized => 401
  | .success _ _ _ _ _ => 200
  | .fatal _ => 500

/-- The `ok` flag of a response body. -/
def Resp.okFlag : Resp → Bool
  | .success _ _ _ _ _ => true
  | _ => false

/-- Truthiness of the `CRON_SECRET` environment variable (`none` =
unset; the empty string is falsy too). -/
def secretTruthy : Option String → Bool
  | none => false
  | some s => decide (s ≠ "")

/-- The `/api/scrape` handler.  `cronSecret` is `process.env.CRON_SECRET`;
`run` is the settled outcome of `runAllScrapers()` (variant 1, the module
the handler requires); `saved` is `setData`'s boolean.  The auth check
runs first; the try/catch turns a rejected run into a 500; a storage
failure only flips `saved`. -/
def handler (cronSecret : Option String) (req : Req)
    (run : Except String SnoCountry.Snapshot) (saved : Bool) : Resp :=
  let validCron := secretTruthy cronSecret &&
    decide (req.authorization = some ("Bearer " ++ cronSecret.getD ""))
  let validManual := secretTruthy cronSecret &&
    decide (req.secretParam = cronSecret)
  let noSecret := !secretTruthy cronSecret
  if !noSecret && !validCron && !validManual then .unauthorized
  else
    match run with
    | .error e => .fatal e
    | .ok results =>
        .success results.scrapedAt results.successCount results.totalCount saved
          (results.mountains.map mtnSummary)

end Trigger

/-! ## Helper lemmas -/

/-- `.ok`-ness of a settled outcome. -/
def isOkB {α : Type} : Except String α → Bool
  | .ok _ => true
  | .error _ => false

/-- Inversion of a successful `Except` bind. -/
theorem bindOk {α β : Type} {x : Except String α} {f : α → Except String β} {b : β}
    (h : x >>= f = .ok b) : ∃ a, x = .ok a ∧ f a = .ok b := by
  cases x with
  | ok a => exact ⟨a, rfl, h⟩
  | error e => simp [Bind.bind, Except.bind] at h

/-- Inversion of a successful `pure`. -/
theorem pureOk {α : Type} {a b : α} (h : (pure a : Except String α) = .ok b) : a = b :=
  Except.ok.inj h

namespace PerResort

/-- The fields every adapter populates on every path: a non-empty
`name`, plus `updatedAt` and `source` present. -/
def coreOK (r : Record2) : Bool :=
  (!(r.name == "")) && jsLooseNeqNull r.updatedAt && jsLooseNeqNull r.source

/-- A settled adapter outcome that is fulfilled with a `coreOK` record. -/
def recResultOK : Except String Record2 → Bool
  | .ok r => coreOK r
  | .error _ => false

theorem scrapeTry_isOk (b : Except String Record2) (d : Record2) :
    isOkB (scrapeTry b d) = true := by
  cases b <;> rfl

theorem scrapeTry2_isOk (b fb : Except String Record2) (d : Record2) :
    isOkB (scrapeTry2 b fb d) = true := by
  cases b with
  | ok r => rfl
  | error e => exact scrapeTry_isOk fb d

theorem recResultOK_scrapeTry {b : Except String Record2} {d : Record2}
    (hb : ∀ r, b = .ok r → coreOK r = true) (hd : coreOK d = true) :
    recResultOK (scrapeTry b d) = true := by
  cases b with
  | ok r => exact hb r rfl
  | error e => exact hd

theorem recResultOK_scrapeTry2 {b fb : Except String Record2} {d : Record2}
    (hb : ∀ r, b = .ok r → coreOK r = true)
    (hfb : ∀ r, fb = .ok r → coreOK r = true) (hd : coreOK d = true) :
    recResultOK (scrapeTry2 b fb d) = true := by
  cases b with
  | ok r => exact hb r rfl
  | error e => exact recResultOK_scrapeTry hfb hd

theorem recResultOK_imp_isOk {res : Except String Record2}
    (h : recResultOK res = true) : isOkB res = true := by
  cases res with
  | ok r => rfl
  | error e => exact absurd h (by simp [recResultOK])

theorem mountainCreek_core (t : String) (f : Except String Page) :
    recResultOK (mountainCreekRun t f) = true := by
  refine recResultOK_scrapeTry ?_ rfl
  intro r h
  obtain ⟨p, -, h⟩ := bindOk h
  have h2 := pureOk h
  subst h2
  rfl

theorem killington_core (t : String) (j : Except String JSVal) (f : Except String Page) :
    recResultOK (killingtonRun t j f) = true := by
  refine recResultOK_scrapeTry2 ?_ ?_ rfl
  · intro r h
    obtain ⟨data, -, h⟩ := bindOk h
    obtain ⟨sr, -, h⟩ := bindOk h
    obtain ⟨a1, -, h⟩ := bindOk h
    obtain ⟨a2, -, h⟩ := bindOk h
    obtain ⟨a3, -, h⟩ := bindOk h
    obtain ⟨a4, -, h⟩ := bindOk h
    obtain ⟨a5, -, h⟩ := bindOk h
    obtain ⟨a6, -, h⟩ := bindOk h
    obtain ⟨a7, -, h⟩ := bindOk h
    obtain ⟨a8, -, h⟩ := bindOk h
    obtain ⟨a9, -, h⟩ := bindOk h
    obtain ⟨a10, -, h⟩ := bindOk h
    obtain ⟨a11, -, h⟩ := bindOk h
    have h2 := pureOk h
    subst h2
    rfl
  · intro r h
    obtain ⟨p, -, h⟩ := bindOk h
    have h2 := pureOk h
    subst h2
    rfl

theorem stowe_core (t : String) (f : Except String Page) :
    recResultOK (stoweRun t f) = true := by
  refine recResultOK_scrapeTry ?_ rfl
  intro r h
  obtain ⟨p, -, h⟩ := bindOk h
  have h2 := pureOk h
  subst h2
  rfl

theorem stratton_core (t : String) (f : Except String Page) :
    recResultOK (strattonRun t f) = true := by
  refine recResultOK_scrapeTry ?_ rfl
  intro r h
  obtain ⟨p, -, h⟩ := bindOk h
  have h2 := pureOk h
  subst h2
  rfl

theorem sugarbush_core (t : String) (f : Except String Page) :
    recResultOK (sugarbushRun t f) = true := by
  refine recResultOK_scrapeTry ?_ rfl
  intro r h
  obtain ⟨p, -, h⟩ := bindOk h
  have h2 := pureOk h
  subst h2
  rfl

theorem pico_core (t : String) (f : Except String Page) :
    recResultOK (picoRun t f) = true := by
  refine recResultOK_scrapeTry ?_ rfl
  intro r h
  obtain ⟨p, -, h⟩ := bindOk h
  have h2 := pureOk h
  subst h2
  rfl

theorem okemo_core (t : String) (f : Except String Page) :
    recResultOK (okemoRun t f) = true := by
  refine recResultOK_scrapeTry ?_ rfl
  intro r h
  obtain ⟨p, -, h⟩ := bindOk h
  have h2 := pureOk h
  subst h2
  rfl

theorem mountSnow_core (t : String) (f : Except String Page) :
    recResultOK (mountSnowRun t f) = true := by
  refine recResultOK_scrapeTry ?_ rfl
  intro r h
  obtain ⟨p, -, h⟩ := bindOk h
  have h2 := pureOk h
  subst h2
  rfl

theorem jayPeak_core (t : String) (f : Except String Page) :
    recResultOK (jayPeakRun t f) = true := by
  refine recResultOK_scrapeTry ?_ rfl
  intro r h
  obtain ⟨p, -, h⟩ := bindOk h
  have h2 := pureOk h
  subst h2
  rfl

theorem burke_core (t : String) (f : Except String Page) :
    recResultOK (burkeRun t f) = true := by
  refine recResultOK_scrapeTry ?_ rfl
  intro r h
  obtain ⟨p, -, h⟩ := bindOk h
  have h2 := pureOk h
  subst h2
  rfl

theorem boltonValley_core (t : String) (f : Except String Page) :
    recResultOK (boltonValleyRun t f) = true := by
  refine recResultOK_scrapeTry ?_ rfl
  intro r h
  obtain ⟨p, -, h⟩ := bindOk h
  have h2 := pureOk h
  subst h2
  rfl

theorem magic_core (t : String) (f : Except String Page) :
    recResultOK (magicRun t f) = true := by
  refine recResultOK_scrapeTry ?_ rfl
  intro r h
  obtain ⟨p, -, h⟩ := bindOk h
  have h2 := pureOk h
  subst h2
  rfl

theorem hunter_core (t : String) (f : Except String Page) :
    recResultOK (hunterRun t f) = true := by
  refine recResultOK_scrapeTry ?_ rfl
  intro r h
  obtain ⟨p, -, h⟩ := bindOk h
  have h2 := pureOk h
  subst h2
  rfl

theorem whiteface_core (t : String) (f : Except String Page) :
    recResultOK (whitefaceRun t f) = true := by
  refine recResultOK_scrapeTry ?_ rfl
  intro r h
  obtain ⟨p, -, h⟩ := bindOk h
  have h2 := pureOk h
  subst h2
  rfl

theorem gore_core (t : String) (f : Except String Page) :
    recResultOK (goreRun t f) = true := by
  refine recResultOK_scrapeTry ?_ rfl
  intro r h
  obtain ⟨p, -, h⟩ := bindOk h
  have h2 := pureOk h
  subst h2
  rfl

theorem belleayre_core (t : String) (f : Except String Page) :
    recResultOK (belleayreRun t f) = true := by
  refine recResultOK_scrapeTry ?_ rfl
  intro r h
  obtain ⟨p, -, h⟩ := bindOk h
  have h2 := pureOk h
  subst h2
  rfl

theorem catamount_core (t : String) (f : Except String Page) :
    recResultOK (catamountRun t f) = true := by
  refine recResultOK_scrapeTry ?_ rfl
  intro r h
  obtain ⟨p, -, h⟩ := bindOk h
  have h2 := pureOk h
  subst h2
  rfl

theorem greekPeak_core (t : String) (f : Except String Page) :
    recResultOK (greekPeakRun t f) = true := by
  refine recResultOK_scrapeTry ?_ rfl
  intro r h
  obtain ⟨p, -, h⟩ := bindOk h
  have h2 := pureOk h
  subst h2
  rfl

theorem westMtn_core (t : String) (f : Except String Page) :
    recResultOK (westMtnRun t f) = true := by
  refine recResultOK_scrapeTry ?_ rfl
  intro r h
  obtain ⟨p, -, h⟩ := bindOk h
  have h2 := pureOk h
  subst h2
  rfl

theorem camelback_core (t : String) (f : Except String Page) :
    recResultOK (camelbackRun t f) = true := by
  refine recResultOK_scrapeTry ?_ rfl
  intro r h
  obtain ⟨p, -, h⟩ := bindOk h
  have h2 := pureOk h
  subst h2
  rfl

theorem blueMtnPA_core (t : String) (f : Except String Page) :
    recResultOK (blueMtnPARun t f) = true := by
  refine recResultOK_scrapeTry ?_ rfl
  intro r h
  obtain ⟨p, -, h⟩ := bindOk h
  have h2 := pureOk h
  subst h2
  rfl

theorem shawnee_core (t : String) (f : Except String Page) :
    recResultOK (shawneeRun t f) = true := by
  refine recResultOK_scrapeTry ?_ rfl
  intro r h
  obtain ⟨p, -, h⟩ := bindOk h
  have h2 := pureOk h
  subst h2
  rfl

theorem sundayRiver_core (t : String) (f : Except String Page) :
    recResultOK (sundayRiverRun t f) = true := by
  refine recResultOK_scrapeTry ?_ rfl
  intro r h
  obtain ⟨p, -, h⟩ := bindOk h
  have h2 := pureOk h
  subst h2
  rfl

theorem sugarloaf_core (t : String) (f : Except String Page) :
    recResultOK (sugarloafRun t f) = true := by
  refine recResultOK_scrapeTry ?_ rfl
  intro r h
  obtain ⟨p, -, h⟩ := bindOk h
  have h2 := pureOk h
  subst h2
  rfl

theorem saddleback_core (t : String) (f : Except String Page) :
    recResultOK (saddlebackRun t f) = true := by
  refine recResultOK_scrapeTry ?_ rfl
  intro r h
  obtain ⟨p, -, h⟩ := bindOk h
  have h2 := pureOk h
  subst h2
  rfl

theorem loon_core (t : String) (f : Except String Page) :
    recResultOK (loonRun t f) = true := by
  refine recResultOK_scrapeTry ?_ rfl
  intro r h
  obtain ⟨p, -, h⟩ := bindOk h
  have h2 := pureOk h
  subst h2
  rfl

theorem attitash_core (t : String) (f : Except String Page) :
    recResultOK (attitashRun t f) = true := by
  refine recResultOK_scrapeTry ?_ rfl
  intro r h
  obtain ⟨p, -, h⟩ := bindOk h
  have h2 := pureOk h
  subst h2
  rfl

theorem wildcat_core (t : String) (f : Except String Page) :
    recResultOK (wildcatRun t f) = true := by
  refine recResultOK_scrapeTry ?_ rfl
  intro r h
  obtain ⟨p, -, h⟩ := bindOk h
  have h2 := pureOk h
  subst h2
  rfl

theorem cannon_core (t : String) (f : Except String Page) :
    recResultOK (cannonRun t f) = true := by
  refine recResultOK_scrapeTry ?_ rfl
  intro r h
  obtain ⟨p, -, h⟩ := bindOk h
  have h2 := pureOk h
  subst h2
  rfl

theorem watervilleValley_core (t : String) (f : Except String Page) :
    recResultOK (watervilleValleyRun t f) = true := by
  refine recResultOK_scrapeTry ?_ rfl
  intro r h
  obtain ⟨p, -, h⟩ := bindOk h
  have h2 := pureOk h
  subst h2
  rfl

theorem leMassif_core (t : String) (f : Except String Page) :
    recResultOK (leMassifRun t f) = true := by
  refine recResultOK_scrapeTry ?_ rfl
  intro r h
  obtain ⟨p, -, h⟩ := bindOk h
  have h2 := pureOk h
  subst h2
  rfl

theorem montSteAnne_core (t : String) (f : Except String Page) :
    recResultOK (montSteAnneRun t f) = true := by
  refine recResultOK_scrapeTry ?_ rfl
  intro r h
  obtain ⟨p, -, h⟩ := bindOk h
  have h2 := pureOk h
  subst h2
  rfl

theorem tremblant_core (t : String) (j : Except String JSVal) (f : Except String Page) :
    recResultOK (tremblantRun t j f) = true := by
  refine recResultOK_scrapeTry2 ?_ ?_ rfl
  · intro r h
    obtain ⟨data, -, h⟩ := bindOk h
    obtain ⟨c, -, h⟩ := bindOk h
    obtain ⟨a1, -, h⟩ := bindOk h
    obtain ⟨a2, -, h⟩ := bindOk h
    obtain ⟨a3, -, h⟩ := bindOk h
    obtain ⟨a4, -, h⟩ := bindOk h
    obtain ⟨a5, -, h⟩ := bindOk h
    obtain ⟨a6, -, h⟩ := bindOk h
    obtain ⟨a7, -, h⟩ := bindOk h
    obtain ⟨a8, -, h⟩ := bindOk h
    obtain ⟨a9, -, h⟩ := bindOk h
    obtain ⟨a10, -, h⟩ := bindOk h
    obtain ⟨a11, -, h⟩ := bindOk h
    obtain ⟨a12, -, h⟩ := bindOk h
    have h2 := pureOk h
    subst h2
    rfl
  · intro r h
    obtain ⟨p, -, h⟩ := bindOk h
    have h2 := pureOk h
    subst h2
    rfl

theorem allScrapers_core (e : ScrapeEnv) :
    (ALL_SCRAPERS.map (fun pr => pr.2 e)).all recResultOK = true := by
  simp only [ALL_SCRAPERS, List.map_cons, List.map_nil, List.all_cons, List.all_nil,
    mountainCreek_core, killington_core, stowe_core, stratton_core, sugarbush_core,
    pico_core, okemo_core, mountSnow_core, jayPeak_core, burke_core, boltonValley_core,
    magic_core, hunter_core, whiteface_core, gore_core, belleayre_core, catamount_core,
    greekPeak_core, westMtn_core, camelback_core, blueMtnPA_core, shawnee_core,
    sundayRiver_core, sugarloaf_core, saddleback_core, loon_core, attitash_core,
    wildcat_core, cannon_core, watervilleValley_core, tremblant_core, leMassif_core,
    montSteAnne_core, Bool.and_self, Bool.and_true]

theorem allScrapers_fulfilled (e : ScrapeEnv) :
    (ALL_SCRAPERS.map (fun pr => pr.2 e)).all isOkB = true := by
  rw [List.all_eq_true]
  intro x hx
  have hc := List.all_eq_true.mp (allScrapers_core e) x hx
  exact recResultOK_imp_isOk hc

theorem settleLoop_length (t : String) (l : List (String × Except String Record2)) :
    (settleLoop t l).1.length = l.length := by
  induction l with
  | nil => rfl
  | cons hd tl ih =>
      obtain ⟨nm, st⟩ := hd
      cases st <;> simp [settleLoop, ih]

theorem settleLoop_count (t : String) (l : List (String × Except String Record2)) :
    (settleLoop t l).2 =
      ((settleLoop t l).1.filter (fun r => jsLooseNeqNull r.base)).length := by
  induction l with
  | nil => rfl
  | cons hd tl ih =>
      obtain ⟨nm, st⟩ := hd
      cases st with
      | ok d =>
          by_cases hb : jsLooseNeqNull d.base = true
          · simp only [settleLoop, List.filter_cons, hb, if_true, ih, List.length_cons]
            omega
          · simp [settleLoop, List.filter_cons, hb, ih]
      | error e =>
          simp [settleLoop, List.filter_cons, ih, jsLooseNeqNull]

theorem settleLoop_all_ok (t : String) (l : List (String × Except String Record2)) :
    (settleLoop t l).2 ≤ l.length := by
  have h := settleLoop_count t l
  have h2 := settleLoop_length t l
  calc (settleLoop t l).2
      = ((settleLoop t l).1.filter (fun r => jsLooseNeqNull r.base)).length := h
    _ ≤ (settleLoop t l).1.length := List.length_filter_le _ _
    _ = l.length := h2

theorem runAllScrapers_mountains_length (e : ScrapeEnv) :
    (runAllScrapers e).mountains.length = ALL_SCRAPERS.length := by
  show (settleLoop e.now (ALL_SCRAPERS.map (fun pr => (pr.1, pr.2 e)))).1.length = _
  rw [settleLoop_length, List.length_map]

theorem runAllScrapers_successCount (e : ScrapeEnv) :
    (runAllScrapers e).successCount =
      ((runAllScrapers e).mountains.filter (fun r => jsLooseNeqNull r.base)).length := by
  exact settleLoop_count e.now (ALL_SCRAPERS.map (fun pr => (pr.1, pr.2 e)))

theorem runAllScrapers_success_le_total (e : ScrapeEnv) :
    (runAllScrapers e).successCount ≤ (runAllScrapers e).totalCount := by
  show (settleLoop e.now (ALL_SCRAPERS.map (fun pr => (pr.1, pr.2 e)))).2 ≤ _
  calc (settleLoop e.now (ALL_SCRAPERS.map (fun pr => (pr.1, pr.2 e)))).2
      ≤ (ALL_SCRAPERS.map (fun pr => (pr.1, pr.2 e))).length := settleLoop_all_ok _ _
    _ = ALL_SCRAPERS.length := List.length_map _ _

end PerResort

namespace SnoCountry

theorem lookup_val_mem {l : List (String × String)} {s c : String}
    (h : List.lookup s l = some c) : c ∈ l.map Prod.snd := by
  induction l with
  | nil => simp [List.lookup] at h
  | cons a tl ih =>
      obtain ⟨k, v⟩ := a
      rw [List.lookup] at h
      by_cases hk : (s == k) = true
      · rw [hk] at h
        simp only [Option.some.injEq] at h
        subst h
        exact List.mem_cons_self _ _
      · rw [Bool.not_eq_true] at hk
        rw [hk] at h
        exact List.mem_cons_of_mem _ (ih h)

theorem nameMap_vals_ne : ∀ x ∈ NAME_MAP.map Prod.snd, x ≠ "" := by decide

end SnoCountry

namespace Trigger

/-- The handler's 401 condition, as one Boolean. -/
def unauthCond (cronSecret : Option String) (req : Req) : Bool :=
  !(!secretTruthy cronSecret) &&
  !(secretTruthy cronSecret &&
    decide (req.authorization = some ("Bearer " ++ cronSecret.getD ""))) &&
  !(secretTruthy cronSecret && decide (req.secretParam = cronSecret))

theorem handler_eq (cs : Option String) (req : Req)
    (run : Except String SnoCountry.Snapshot) (saved : Bool) :
    handler cs req run saved =
      if unauthCond cs req then .unauthorized
      else
        match run with
        | .error e => .fatal e
        | .ok results =>
            .success results.scrapedAt results.successCount results.totalCount saved
              (results.mountains.map mtnSummary) := rfl

theorem handler_unauth_iff (cs : Option String) (req : Req)
    (run : Except String SnoCountry.Snapshot) (saved : Bool) :
    handler cs req run saved = .unauthorized ↔ unauthCond cs req = true := by
  rw [handler_eq]
  by_cases h : unauthCond cs req = true
  · simp [h]
  · rw [if_neg h]
    constructor
    · intro heq
      cases run <;> simp_all
    · intro hc
      exact absurd hc h

theorem unauthCond_iff (cs : Option String) (req : Req) :
    unauthCond cs req = true ↔
      ∃ s, cs = some s ∧ s ≠ "" ∧
        req.authorization ≠ some ("Bearer " ++ s) ∧ req.secretParam ≠ some s := by
  cases cs with
  | none => simp [unauthCond, secretTruthy]
  | some s =>
      by_cases hs : s = ""
      · subst hs
        simp [unauthCond, secretTruthy]
      · simp [unauthCond, secretTruthy, hs, Option.getD]

end Trigger

/-! ## Claim theorems -/

/-- C1: for every completed run of either `runAllScrapers` variant,
`successCount` equals the number of records in `mountains` whose `base`
is present (`base != null`), and `successCount ≤ totalCount`. -/
theorem c1_successCount_invariant :
    (∀ (allResults : List (Except String JSVal)) (t : String)
        (snap : SnoCountry.Snapshot),
        SnoCountry.runAllScrapers allResults t = .ok snap →
        snap.successCount =
          (snap.mountains.filter (fun m => jsLooseNeqNull m.base)).length ∧
        snap.successCount ≤ snap.totalCount) ∧
    (∀ e : PerResort.ScrapeEnv,
        (PerResort.runAllScrapers e).successCount =
          ((PerResort.runAllScrapers e).mountains.filter
            (fun r => jsLooseNeqNull r.base)).length ∧
        (PerResort.runAllScrapers e).successCount ≤
          (PerResort.runAllScrapers e).totalCount) := by
  constructor
  · intro allResults t snap h
    unfold SnoCountry.runAllScrapers at h
    obtain ⟨resorts, -, h⟩ := bindOk h
    obtain ⟨matched, -, h⟩ := bindOk h
    have h2 := pureOk h
    subst h2
    exact ⟨rfl, List.length_filter_le _ _⟩
  · intro e
    exact ⟨PerResort.runAllScrapers_successCount e,
           PerResort.runAllScrapers_success_le_total e⟩

/-- Witness for C1: a concrete completed SnoCountry run (one accepted
resort with a parsed base depth). -/
theorem c1_successCount_invariant_witness :
    (⟨[{ name := .str "Killington", base := .num 60, summit := .jsnull,
         newSnow24 := .jsnull, newSnow48 := .jsnull, newSnow7d := .jsnull,
         trailsOpen := .jsnull, trailsTotal := .jsnull, liftsOpen := .jsnull,
         liftsTotal := .jsnull, surface := .jsnull, season := .jsnull,
         status := "Open", updatedAt := .str "T", source := "SnoCountry" }],
       "T", 1, 1⟩ : SnoCountry.Snapshot).successCount =
      ((⟨[{ name := .str "Killington", base := .num 60, summit := .jsnull,
            newSnow24 := .jsnull, newSnow48 := .jsnull, newSnow7d := .jsnull,
            trailsOpen := .jsnull, trailsTotal := .jsnull, liftsOpen := .jsnull,
            liftsTotal := .jsnull, surface := .jsnull, season := .jsnull,
            status := "Open", updatedAt := .str "T", source := "SnoCountry" }],
          "T", 1, 1⟩ : SnoCountry.Snapshot).mountains.filter
        (fun m => jsLooseNeqNull m.base)).length ∧
    (⟨[{ name := .str "Killington", base := .num 60, summit := .jsnull,
         newSnow24 := .jsnull, newSnow48 := .jsnull, newSnow7d := .jsnull,
         trailsOpen := .jsnull, trailsTotal := .jsnull, liftsOpen := .jsnull,
         liftsTotal := .jsnull, surface := .jsnull, season := .jsnull,
         status := "Open", updatedAt := .str "T", source := "SnoCountry" }],
       "T", 1, 1⟩ : SnoCountry.Snapshot).successCount ≤
      (⟨[{ name := .str "Killington", base := .num 60, summit := .jsnull,
           newSnow24 := .jsnull, newSnow48 := .jsnull, newSnow7d := .jsnull,
           trailsOpen := .jsnull, trailsTotal := .jsnull, liftsOpen := .jsnull,
           liftsTotal := .jsnull, surface := .jsnull, season := .jsnull,
           status := "Open", updatedAt := .str "T", source := "SnoCountry" }],
         "T", 1, 1⟩ : SnoCountry.Snapshot).totalCount :=
  c1_successCount_invariant.1
    [Except.ok (.arr [.obj [("resort_name", .str "Killington"),
                            ("base_depth", .str "60")]])] "T" _
    (by with_unfolding_all rfl)

/-- C2: the claim says every record's `name` is a canonical identifier,
but `parseRecord` stores the raw provider name: it computes the
canonical `ourName` only for the accept/drop decision and returns
`{ name }` with the raw SnoCountry string, which is not among the
registry's canonical values. -/
theorem c2_record_keeps_raw_provider_name :
    (match SnoCountry.parseRecord "T"
        (.obj [("resort_name", .str "Killington Resort"),
               ("base_depth", .str "60")]) with
     | .ok (some rec) => rec.name
     | _ => .undefined) = .str "Killington Resort" ∧
    SnoCountry.resolveNameE (.str "Killington Resort") = .ok (.str "KILLINGTON") ∧
    (SnoCountry.NAME_MAP.map Prod.snd).contains "Killington Resort" = false := by
  refine ⟨?_, ?_, ?_⟩ <;> with_unfolding_all rfl

/-- C3: the claim says at most one record per canonical name survives,
but the dedup set is keyed on the raw provider name: two entries that
both resolve to the canonical `KILLINGTON` are both retained. -/
theorem c3_duplicate_canonical_names_retained :
    (match SnoCountry.runAllScrapers
        [Except.ok (.arr [.obj [("resort_name", .str "Killington")],
                          .obj [("resort_name", .str "Killington Resort")]])] "T" with
     | .ok s => (s.mountains.map (fun m => m.name), s.totalCount)
     | .error _ => ([], 0)) = ([.str "Killington", .str "Killington Resort"], 2) ∧
    SnoCountry.resolveNameE (.str "Killington") = .ok (.str "KILLINGTON") ∧
    SnoCountry.resolveNameE (.str "Killington Resort") = .ok (.str "KILLINGTON") := by
  refine ⟨?_, ?_, ?_⟩ <;> with_unfolding_all rfl

/-- C4 (amended): every per-resort adapter settles fulfilled with a
record whose `name`, `updatedAt` and `source` are populated on every
path, and the SnoCountry state fetcher degrades to `[]` — but the
worst-case record carries no `status` (see the counterexample). -/
theorem c4_adapters_never_fail_outward :
    (∀ e : PerResort.ScrapeEnv,
        (PerResort.ALL_SCRAPERS.map (fun pr => pr.2 e)).all
          PerResort.recResultOK = true) ∧
    (∀ msg : String, SnoCountry.fetchState (.error msg) = .arr []) :=
  ⟨PerResort.allScrapers_core, fun _ => rfl⟩

/-- Counterexample for C4 as stated: when the fetch fails, the
`mountainCreek` adapter's catch block returns a record with `name`,
`updatedAt` and `source` only — its `status` is absent, not defaulted
to `Open`. -/
theorem c4_degraded_record_lacks_status :
    PerResort.mountainCreekRun "2026-02-23T12:00:00Z" (.error "socket hang up") =
      .ok { name := "MOUNTAIN CREEK",
            updatedAt := .str "2026-02-23T12:00:00Z",
            source := .str PerResort.mountainCreekUrl } ∧
    (match PerResort.mountainCreekRun "2026-02-23T12:00:00Z"
        (.error "socket hang up") with
     | .ok r => r.status
     | .error _ => .str "unreachable") = .undefined :=
  ⟨rfl, rfl⟩

/-- Counterexample for C5 as stated: resolution is not case-insensitive
for known variants.  `"Killington"` is a registered variant, yet its
case variant `"killington"` resolves under neither the raw nor the
trimmed lookup, so its record is dropped; likewise a known variant with
altered interior whitespace. -/
theorem c5_case_variant_dropped :
    SnoCountry.NAME_MAP.lookup "Killington" = some "KILLINGTON" ∧
    SnoCountry.resolveNameE (.str "killington") = .ok .undefined ∧
    SnoCountry.parseRecord "T" (.obj [("resort_name", .str "killington")]) = .ok none ∧
    SnoCountry.resolveNameE (.str "Killington  Resort") = .ok .undefined := by
  refine ⟨?_, ?_, ?_, ?_⟩ <;> with_unfolding_all rfl

/-- C5 (amended): the resolver tries the raw string first and then the
leading/trailing-trimmed string; it tolerates leading/trailing
whitespace on known variants but is case-sensitive (exact match against
the registry); a name resolving under neither lookup makes `parseRecord`
return `null`, dropping the record; and `"  Killington Resort  "` maps
to `KILLINGTON`. -/
theorem c5_resolver_amended :
    (∀ s c : String, SnoCountry.NAME_MAP.lookup s = some c →
        SnoCountry.resolveNameE (.str s) = .ok (.str c)) ∧
    (∀ s : String, SnoCountry.NAME_MAP.lookup s = none →
        SnoCountry.resolveNameE (.str s) =
          .ok (SnoCountry.nameMapGet (.str s.trim))) ∧
    SnoCountry.resolveNameE (.str "  Killington Resort  ") = .ok (.str "KILLINGTON") ∧
    (∀ (t : String) (r name v : JSVal),
        jsGetOr2 r "resort_name" "resortName" = .ok name →
        SnoCountry.resolveNameE name = .ok v → jsTruthy v = false →
        SnoCountry.parseRecord t r = .ok none) := by
  refine ⟨?_, ?_, by with_unfolding_all rfl, ?_⟩
  · intro s c h
    have hmem := SnoCountry.lookup_val_mem h
    have hne : c ≠ "" := SnoCountry.nameMap_vals_ne c hmem
    simp only [SnoCountry.resolveNameE, SnoCountry.nameMapGet]
    rw [show jsValToString (.str s) = s from rfl, h]
    simp [jsTruthy, hne, pure, Except.pure]
  · intro s h
    simp only [SnoCountry.resolveNameE, SnoCountry.nameMapGet]
    rw [show jsValToString (.str s) = s from rfl, h]
    simp [jsTruthy, SnoCountry.jsOptChainTrim, Bind.bind, Except.bind,
      pure, Except.pure, SnoCountry.nameMapGet]
  · intro t r name v h1 h2 h3
    simp only [SnoCountry.parseRecord]
    rw [h1]
    simp [Bind.bind, Except.bind, h2, h3, pure, Except.pure]

/-- Witness for C5 (amended): a registered variant resolves raw, an
unregistered name falls through to the trimmed lookup and is dropped. -/
theorem c5_resolver_amended_witness :
    SnoCountry.resolveNameE (.str "Killington") = .ok (.str "KILLINGTON") ∧
    SnoCountry.resolveNameE (.str "Bogus Mountain") =
      .ok (SnoCountry.nameMapGet (.str ("Bogus Mountain").trim)) ∧
    SnoCountry.parseRecord "T" (.obj [("resort_name", .str "Bogus Mountain")]) =
      .ok none :=
  ⟨c5_resolver_amended.1 "Killington" "KILLINGTON" (by with_unfolding_all rfl),
   c5_resolver_amended.2.1 "Bogus Mountain" (by with_unfolding_all rfl),
   c5_resolver_amended.2.2.2 "T" (.obj [("resort_name", .str "Bogus Mountain")])
     (.str "Bogus Mountain") .undefined (by with_unfolding_all rfl)
     (by with_unfolding_all rfl) (by with_unfolding_all rfl)⟩

/-- C6: when the persistence write fails (`setData` returns `false`), an
authorized trigger call still answers 200 with `ok: true`,
`saved: false`, and the run's own `successCount`/`totalCount`. -/
theorem c6_storage_failure_nonfatal :
    ∀ (cronSecret : Option String) (req : Trigger.Req)
      (snap : SnoCountry.Snapshot),
      Trigger.handler cronSecret req (.ok snap) false = .unauthorized ∨
      (Trigger.handler cronSecret req (.ok snap) false =
          .success snap.scrapedAt snap.successCount snap.totalCount false
            (snap.mountains.map Trigger.mtnSummary) ∧
        (Trigger.handler cronSecret req (.ok snap) false).status = 200 ∧
        (Trigger.handler cronSecret req (.ok snap) false).okFlag = true) := by
  intro cs req snap
  rw [Trigger.handler_eq]
  by_cases h : Trigger.unauthCond cs req = true
  · left
    rw [if_pos h]
  · right
    rw [if_neg h]
    exact ⟨rfl, rfl, rfl⟩

/-- C7: the trigger answers 401 exactly when a non-empty `CRON_SECRET`
is configured and neither the `Authorization` header equals
`Bearer <secret>` nor the `secret` query parameter equals the secret;
with no secret configured, every request proceeds. -/
theorem c7_auth_gate :
    ∀ (cronSecret : Option String) (req : Trigger.Req)
      (run : Except String SnoCountry.Snapshot) (saved : Bool),
      (Trigger.handler cronSecret req run saved = .unauthorized ↔
        ∃ s, cronSecret = some s ∧ s ≠ "" ∧
          req.authorization ≠ some ("Bearer " ++ s) ∧
          req.secretParam ≠ some s) ∧
      ((cronSecret = none ∨ cronSecret = some "") →
        Trigger.handler cronSecret req run saved ≠ .unauthorized) := by
  intro cs req run saved
  constructor
  · rw [Trigger.handler_unauth_iff, Trigger.unauthCond_iff]
  · intro hc
    rw [Ne, Trigger.handler_unauth_iff, Trigger.unauthCond_iff]
    rintro ⟨s, hcs, hne, -⟩
    rcases hc with h | h <;> rw [h] at hcs
    · exact Option.noConfusion hcs
    · exact hne (Option.some.inj hcs).symm

/-- Witness for C7: a wrong bearer token is refused when a secret is
set, and an unauthenticated request passes when none is set. -/
theorem c7_auth_gate_witness :
    Trigger.handler (some "sec")
        { authorization := some "Bearer nope", secretParam := none }
        (.ok ⟨[], "T", 0, 0⟩) true = .unauthorized ∧
    Trigger.handler none { authorization := none, secretParam := none }
        (.ok ⟨[], "T", 0, 0⟩) true ≠ .unauthorized :=
  ⟨(c7_auth_gate (some "sec")
      { authorization := some "Bearer nope", secretParam := none }
      (.ok ⟨[], "T", 0, 0⟩) true).1.mpr
      ⟨"sec", rfl, by decide, by decide, by decide⟩,
   (c7_auth_gate none { authorization := none, secretParam := none }
      (.ok ⟨[], "T", 0, 0⟩) true).2 (Or.inl rfl)⟩

/-- C8: `cmToIn` maps a numeric value `cm` to `Math.round(cm / 2.54)`
and `null` to `null`; in particular 142 cm becomes 56, also end to end
through the `tremblant` adapter. -/
theorem c8_cm_to_inches :
    (∀ q : ℚ, cmToIn (.num q) = .num ((jsRound (q / 2.54) : ℤ) : ℚ)) ∧
    cmToIn .jsnull = .jsnull ∧
    cmToIn .undefined = .jsnull ∧
    cmToIn (.num 142) = .num 56 ∧
    (match PerResort.tremblantRun "T"
        (.ok (.obj [("baseDepthCm", .num 142)])) (.error "down") with
     | .ok r => r.base
     | .error _ => .undefined) = .num 56 := by
  refine ⟨fun q => rfl, rfl, rfl, ?_, ?_⟩ <;> with_unfolding_all rfl

/-- C9: every registered scraper catches its own errors and settles
fulfilled under every fetch environment, so the rejected branch of
`runAllScrapers` is unreachable and `mountains` always has exactly
`ALL_SCRAPERS.length` entries, which is `totalCount`. -/
theorem c9_all_adapters_fulfill :
    ∀ e : PerResort.ScrapeEnv,
      (PerResort.ALL_SCRAPERS.map (fun pr => pr.2 e)).all isOkB = true ∧
      (PerResort.runAllScrapers e).mountains.length =
        PerResort.ALL_SCRAPERS.length ∧
      (PerResort.runAllScrapers e).totalCount = PerResort.ALL_SCRAPERS.length :=
  fun e => ⟨PerResort.allScrapers_fulfilled e,
    PerResort.runAllScrapers_mountains_length e, rfl⟩

/-- C10: the SnoCountry parser computes every numeric field as
`parse(...) || null`, so a parsed zero is emitted as `null`,
indistinguishable from an absent upstream field; and `parseInches`
returns `null` for the number `0` but `0` for the string `"0"`. -/
theorem c10_zero_collapses_to_null :
    parseInches (.num 0) = .jsnull ∧
    parseInches (.str "0") = .num 0 ∧
    (match SnoCountry.parseRecord "T"
        (.obj [("resort_name", .str "Killington"),
               ("base_depth", .str "0"), ("open_runs", .str "0")]) with
     | .ok (some rec) => (rec.base, rec.trailsOpen)
     | _ => (.nan, .nan)) = (.jsnull, .jsnull) ∧
    (match SnoCountry.parseRecord "T"
        (.obj [("resort_name", .str "Killington")]) with
     | .ok (some rec) => (rec.base, rec.trailsOpen)
     | _ => (.nan, .nan)) = (.jsnull, .jsnull) ∧
    (∀ v : JSVal, jsParseFloat v = .num 0 →
      jsOrNull (jsParseFloat v) = .jsnull) := by
  refine ⟨?_, ?_, ?_, ?_, ?_⟩
  · with_unfolding_all rfl
  · with_unfolding_all rfl
  · with_unfolding_all rfl
  · with_unfolding_all rfl
  · intro v h
    rw [h]
    rfl

/-- Witness for C10: the `parse(...) || null` collapse at the number 0. -/
theorem c10_zero_collapses_to_null_witness :
    jsOrNull (jsParseFloat (.num 0)) = .jsnull :=
  c10_zero_collapses_to_null.2.2.2.2 (.num 0) rfl

end NJSki
